import Mathlib

/-!
# BookStore microservices: the order service's circuit breaker and order handler

A shallow embedding of `src/order-service/server.js` (class `CircuitBreaker`, the
`paymentCircuitBreaker` instance and the `POST /order` handler) and of the book lookup of
`src/catalog-service/server.js`, followed by the properties proved about them.

Conventions of the embedding.

* `Date.now()` is an integer number of milliseconds; every reading the code takes is an explicit
  argument (`now` for the reading in `call`, `failTime` for the one in `onFailure`, `orderTime`
  for the one inside the payment closure).
* An awaited remote operation is a state-passing function `σ → Except JsError α × σ` on an
  arbitrary world `σ`: running it may change the world, not running it leaves the world alone.
* `console.log` output is not part of the model.
-/

namespace BookStore

/-! ## Circuit breaker (`src/order-service/server.js`, lines 10-66) -/

/-- The three values taken by the `state` field of the breaker. -/
inductive BreakerState where
  | CLOSED
  | OPEN
  | HALF_OPEN
  deriving DecidableEq, Repr

/-- A thrown JavaScript error, reduced to the properties the order handler reads:
`error.message`, `error.code`, `error.response?.status`, `error.config?.url`, `error.stack`. -/
structure JsError where
  message : String
  code : Option String
  responseStatus : Option Nat
  configUrl : Option String
  stack : Option String
  deriving DecidableEq, Repr

/-- The fields of a `CircuitBreaker` instance. `lastFailureTime` is `null` (`none`) until the
first recorded failure. -/
structure CircuitBreaker where
  threshold : Nat
  timeout : Nat
  resetTimeout : Int
  failureCount : Nat
  lastFailureTime : Option Int
  state : BreakerState
  deriving DecidableEq, Repr

/-- The constructor (lines 11-18); the JavaScript defaults are `5, 60000, 30000`. -/
def CircuitBreaker.new (threshold timeout : Nat) (resetTimeout : Int) : CircuitBreaker :=
  { threshold := threshold
    timeout := timeout
    resetTimeout := resetTimeout
    failureCount := 0
    lastFailureTime := none
    state := .CLOSED }

/-- The message of the error thrown by `call` when it refuses to run the operation (line 27). -/
def breakerOpenMessage : String := "Payment Service temporarily unavailable"

/-- The value `new Error('Payment Service temporarily unavailable')`: a plain `Error` has a
message and a stack, and no `code`, `response` or `config`. -/
def breakerOpenError : JsError :=
  { message := breakerOpenMessage
    code := none
    responseStatus := none
    configUrl := none
    stack := some "Error: Payment Service temporarily unavailable" }

/-- Method `onSuccess` (lines 41-45). -/
def CircuitBreaker.onSuccess (cb : CircuitBreaker) : CircuitBreaker :=
  { cb with failureCount := 0, state := .CLOSED }

/-- Method `onFailure` (lines 47-57); `now` is the reading of `Date.now()` on line 49. -/
def CircuitBreaker.onFailure (cb : CircuitBreaker) (now : Int) : CircuitBreaker :=
  let cb1 := { cb with failureCount := cb.failureCount + 1, lastFailureTime := some now }
  if cb1.failureCount ≥ cb1.threshold then { cb1 with state := .OPEN } else cb1

/-- The guard at the head of `call` (lines 21-29): the breaker as the operation will find it, or
the error thrown without running it. In `Date.now() - this.lastFailureTime` a `null` operand
counts as `0`. -/
def CircuitBreaker.enter (cb : CircuitBreaker) (now : Int) : Except JsError CircuitBreaker :=
  if cb.state = .OPEN then
    if now - cb.lastFailureTime.getD 0 > cb.resetTimeout then
      .ok { cb with state := .HALF_OPEN }
    else
      .error breakerOpenError
  else
    .ok cb

/-- What a finished `call` leaves behind: the breaker, the value returned or the error thrown,
and the world. -/
structure CallResult (σ α : Type) where
  breaker : CircuitBreaker
  outcome : Except JsError α
  world : σ

/-- Method `call` (lines 20-39). `now` is the clock reading of line 22, `failTime` the one taken
by `onFailure` should the operation fail. -/
def CircuitBreaker.call {σ α : Type} (cb : CircuitBreaker) (now : Int)
    (serviceCall : σ → Except JsError α × σ) (w : σ) (failTime : Int) : CallResult σ α :=
  match cb.enter now with
  | .error e => { breaker := cb, outcome := .error e, world := w }
  | .ok cb1 =>
    match serviceCall w with
    | (.ok result, w1) => { breaker := cb1.onSuccess, outcome := .ok result, world := w1 }
    | (.error error, w1) =>
      { breaker := cb1.onFailure failTime, outcome := .error error, world := w1 }

/-- The object returned by `getState()` (lines 59-65). -/
structure BreakerStatus where
  state : BreakerState
  failureCount : Nat
  threshold : Nat
  deriving DecidableEq, Repr

/-- Method `getState` (lines 59-65). -/
def CircuitBreaker.getState (cb : CircuitBreaker) : BreakerStatus :=
  { state := cb.state, failureCount := cb.failureCount, threshold := cb.threshold }

/-- A call counter around an operation: the second component of the world counts how many times
the operation ran. -/
def counting {σ α : Type} (serviceCall : σ → Except JsError α × σ) :
    σ × Nat → Except JsError α × (σ × Nat) :=
  fun p => ((serviceCall p.1).1, ((serviceCall p.1).2, p.2 + 1))

/-! ### Sequences of sequential calls -/

/-- One sequential `call()`: the clock reading on entry, what the wrapped operation does if it
is run, and the clock reading `onFailure` would take. -/
structure CallEvent where
  now : Int
  result : Except JsError Unit
  failTime : Int

/-- Whether the wrapped operation of the event fails. -/
def CallEvent.fails (ev : CallEvent) : Bool :=
  match ev.result with
  | .ok _ => false
  | .error _ => true

/-- The breaker after one sequential call. -/
def CircuitBreaker.step (cb : CircuitBreaker) (ev : CallEvent) : CircuitBreaker :=
  (cb.call ev.now (fun w => (ev.result, w)) () ev.failTime).breaker

/-- The breaker after a sequence of sequential calls. -/
def CircuitBreaker.run (cb : CircuitBreaker) (evs : List CallEvent) : CircuitBreaker :=
  evs.foldl CircuitBreaker.step cb

/-- The invariant kept by every sequential call: the threshold is the one the breaker was built
with, a `CLOSED` breaker counts fewer failures than the threshold, an `OPEN` one at least the
threshold, and the breaker is not left `HALF_OPEN`. -/
def CircuitBreaker.Inv (N : Nat) (cb : CircuitBreaker) : Prop :=
  cb.threshold = N ∧ (cb.state = .CLOSED → cb.failureCount < N) ∧
    (cb.state = .OPEN → N ≤ cb.failureCount) ∧ cb.state ≠ .HALF_OPEN

/-- An error as axios raises it for a response whose status is outside `2xx`. -/
def axiosStatusError (status : Nat) (url : String) : JsError :=
  { message := "Request failed with status code " ++ toString status
    code := some (if status < 500 then "ERR_BAD_REQUEST" else "ERR_BAD_RESPONSE")
    responseStatus := some status
    configUrl := some url
    stack := none }

/-- A call whose operation is answered with status 500 by the payment service. -/
def failingEvent (now : Int) : CallEvent :=
  { now := now, result := .error (axiosStatusError 500 "http://payment:5002/pay"), failTime := now }

/-- A call whose operation succeeds. -/
def succeedingEvent (now : Int) : CallEvent :=
  { now := now, result := .ok (), failTime := now }

/-! ## JavaScript values

The order handler computes with JavaScript numbers (IEEE-754 binary64) and applies `!`, `<=`,
`*` and template-literal conversion to whatever JSON values the request carries. -/

/-- A JavaScript number: `NaN`, an infinity, or a finite binary64 value given by its exact
rational value. The sign of zero is not tracked (`-0` and `+0` are both `fin 0`; JSON prints
both as `0`). -/
inductive JsNum where
  | nan
  | inf (negative : Bool)
  | fin (q : ℚ)
  deriving DecidableEq

/-- Number of binary digits of `n` minus one, for `0 < n ≤ fuel`; `0` for `n = 0`. -/
def log2Aux : Nat → Nat → Nat
  | 0, _ => 0
  | fuel + 1, n => if n < 2 then 0 else log2Aux fuel (n / 2) + 1

/-- The integer `e` with `2 ^ e ≤ n / d < 2 ^ (e + 1)`, for positive `n` and `d`. -/
def floorLog2 (n d : Nat) : Int :=
  if d * 2 ^ ((log2Aux n n : Int) - (log2Aux d d : Int)).toNat
      ≤ n * 2 ^ ((log2Aux d d : Int) - (log2Aux n n : Int)).toNat then
    (log2Aux n n : Int) - (log2Aux d d : Int)
  else
    (log2Aux n n : Int) - (log2Aux d d : Int) - 1

/-- The integer nearest to `num / den`, ties going to the even one. -/
def roundHalfEven (num den : Nat) : Nat :=
  if 2 * (num % den) < den then num / den
  else if den < 2 * (num % den) then num / den + 1
  else if (num / den) % 2 = 0 then num / den
  else num / den + 1

/-- The exponent of the unit in the last place of the binary64 values around `n / d`: 52 below
the exponent of `n / d`, and never below that of the subnormal numbers. -/
def ulpExponent (n d : Nat) : Int :=
  max (floorLog2 n d) (-1022) - 52

/-- The binary64 value nearest to the positive rational `n / d` (ties to even), or `none` when
the rounded value does not fit (it would be `2 ^ 1024` or more). -/
def roundMagnitude (n d : Nat) : Option ℚ :=
  let x := ulpExponent n d
  let m := roundHalfEven (n * 2 ^ (-x).toNat) (d * 2 ^ x.toNat)
  if 2 ^ 1024 * 2 ^ (-x).toNat ≤ m * 2 ^ x.toNat then none
  else some (mkRat (m * 2 ^ x.toNat : Nat) (2 ^ (-x).toNat))

/-- Rounding of an exact result to binary64, round-to-nearest, ties-to-even: what every
arithmetic operation of JavaScript applies to its exact result, and what `JSON.parse` applies to
a decimal numeral. -/
def roundBinary64 (q : ℚ) : JsNum :=
  if q = 0 then .fin 0
  else
    match roundMagnitude q.num.natAbs q.den with
    | none => .inf (decide (q < 0))
    | some r => .fin (if q < 0 then -r else r)

/-- JavaScript `a * b` on numbers. -/
def JsNum.mul : JsNum → JsNum → JsNum
  | .nan, _ => .nan
  | _, .nan => .nan
  | .inf s, .inf t => .inf (s != t)
  | .inf s, .fin q => if q = 0 then .nan else .inf (s != decide (q < 0))
  | .fin q, .inf s => if q = 0 then .nan else .inf (s != decide (q < 0))
  | .fin a, .fin b => roundBinary64 (a * b)

/-- JavaScript `a / b` on numbers (a zero divisor is taken to be `+0`). -/
def JsNum.div : JsNum → JsNum → JsNum
  | .nan, _ => .nan
  | _, .nan => .nan
  | .inf _, .inf _ => .nan
  | .inf s, .fin q => .inf (s != decide (q < 0))
  | .fin _, .inf _ => .fin 0
  | .fin a, .fin b =>
    if b = 0 then (if a = 0 then .nan else .inf (decide (a < 0))) else roundBinary64 (a / b)

/-- JavaScript `Math.round`: the integer nearest to the argument, ties going up. On a binary64
value the result is again a binary64 value. -/
def JsNum.round : JsNum → JsNum
  | .fin q => .fin (⌊q + 1 / 2⌋ : ℤ)
  | n => n

/-- JavaScript `x <= 0` on a number: false for `NaN`. -/
def JsNum.leZero : JsNum → Bool
  | .nan => false
  | .inf negative => negative
  | .fin q => decide (q ≤ 0)

/-- JavaScript `ToBoolean` on a number: `NaN` and zero are falsy. -/
def JsNum.truthy : JsNum → Bool
  | .nan => false
  | .inf _ => true
  | .fin q => decide (q ≠ 0)

/-- JavaScript `a === b` on numbers: `NaN` equals nothing. -/
def JsNum.strictEq (a b : JsNum) : Bool :=
  a ≠ .nan && a = b

/-- The parts of the JavaScript runtime and of the process environment that the model takes as
given: the conversion of a string to a number (`ToNumber`), the printing of a number that is not
an integer below `10 ^ 21`, and whether `process.env.NODE_ENV === 'development'`. -/
structure JsRuntime where
  stringToNumber : String → JsNum
  numberToString : ℚ → String
  development : Bool

/-- JavaScript `ToString` on a number; integers below `10 ^ 21` print in decimal. -/
def JsNum.toStr (rt : JsRuntime) : JsNum → String
  | .nan => "NaN"
  | .inf false => "Infinity"
  | .inf true => "-Infinity"
  | .fin q =>
    if q.den = 1 ∧ q.num.natAbs < 10 ^ 21 then toString q.num else rt.numberToString q

/-- A field of the parsed JSON request body: absent (`undefined`), `null`, a boolean, a number or
a string. Fields holding arrays or objects are outside the model. -/
inductive JsVal where
  | undefined
  | null
  | bool (b : Bool)
  | num (n : JsNum)
  | str (s : String)
  deriving DecidableEq

/-- JavaScript `ToBoolean`: the value of `!!v`. -/
def JsVal.truthy : JsVal → Bool
  | .undefined => false
  | .null => false
  | .bool b => b
  | .num n => n.truthy
  | .str s => decide (s ≠ "")

/-- JavaScript `ToNumber`, as applied by `<=` and `*` to an operand. -/
def JsVal.toNumber (rt : JsRuntime) : JsVal → JsNum
  | .undefined => .nan
  | .null => .fin 0
  | .bool b => .fin (if b then 1 else 0)
  | .num n => n
  | .str s => rt.stringToNumber s

/-- JavaScript `ToString`, as applied by a template literal. -/
def JsVal.toStr (rt : JsRuntime) : JsVal → String
  | .undefined => "undefined"
  | .null => "null"
  | .bool b => if b then "true" else "false"
  | .num n => n.toStr rt
  | .str s => s

/-! ## Order handler (`src/order-service/server.js`, lines 68-172) -/

/-- The instance `paymentCircuitBreaker = new CircuitBreaker(3, 60000, 10000)` (line 68). -/
def paymentCircuitBreaker : CircuitBreaker := CircuitBreaker.new 3 60000 10000

/-- The two fields the handler reads from `req.body` (line 72). -/
structure OrderBody where
  bookID : JsVal
  quantity : JsVal
  deriving DecidableEq

/-- The fields of `bookResponse.data` (the catalog's book record). -/
structure Book where
  bookID : JsNum
  title : String
  price : JsNum
  deriving DecidableEq

/-- The JSON body posted to the payment service (lines 103-106). -/
structure PaymentRequest where
  amount : JsNum
  orderId : String
  deriving DecidableEq

/-- The `orderDetails` object of a successful answer (lines 120-125). -/
structure OrderDetails where
  book : String
  quantity : JsVal
  unitPrice : JsNum
  totalCost : JsNum
  deriving DecidableEq

/-- An answer of the order handler: the HTTP status and the fields of the JSON body (`none` for a
field that is absent or `undefined`). -/
structure Response (α : Type) where
  status : Nat
  success : Option Bool
  error : Option String
  circuitBreakerState : Option BreakerStatus
  details : Option String
  errorCode : Option String
  stack : Option String
  orderDetails : Option OrderDetails
  payment : Option α
  deriving DecidableEq

/-- The result of handling one request: the answer, the breaker and the world afterwards. -/
structure HandlerResult (σ α : Type) where
  response : Response α
  breaker : CircuitBreaker
  world : σ

/-- The guard of line 76: `!bookID || !quantity || quantity <= 0`. -/
def invalidOrder (rt : JsRuntime) (body : OrderBody) : Bool :=
  !body.bookID.truthy || !body.quantity.truthy || (body.quantity.toNumber rt).leZero

/-- The answer of line 78: `res.status(400).json({ error: 'Invalid order data' })`. -/
def invalidOrderResponse {α : Type} : Response α :=
  { status := 400, success := none, error := some "Invalid order data"
    circuitBreakerState := none, details := none, errorCode := none, stack := none
    orderDetails := none, payment := none }

/-- The expression `Math.round(book.price * quantity * 100) / 100` of line 93. -/
def totalCost (price quantity : JsNum) : JsNum :=
  (((price.mul quantity).mul (.fin 100)).round).div (.fin 100)

/-- The rule of the specification for `totalCost`: the exact product rounded half-up to two
decimal places. -/
def roundHalfUp2 (r : ℚ) : ℚ :=
  (⌊r * 100 + 1 / 2⌋ : ℤ) / 100

/-- The expression `error.config?.url || 'unknown service'` (lines 152 and 159). -/
def urlOrUnknown (error : JsError) : String :=
  match error.configUrl with
  | some url => if url ≠ "" then url else "unknown service"
  | none => "unknown service"

/-- The `catch` block (lines 129-171); `cb` is the payment breaker at that moment. -/
def handleError {α : Type} (rt : JsRuntime) (cb : CircuitBreaker) (error : JsError) :
    Response α :=
  if error.message = "Payment Service temporarily unavailable" then
    { status := 503, success := some false
      error := some "Payment Service temporarily unavailable"
      circuitBreakerState := some cb.getState
      details := none, errorCode := none, stack := none, orderDetails := none, payment := none }
  else if error.responseStatus = some 404 then
    { status := 404, success := some false, error := some "Book not found"
      circuitBreakerState := none, details := none, errorCode := none, stack := none
      orderDetails := none, payment := none }
  else if error.code = some "ECONNREFUSED" then
    { status := 500, success := some false, error := some "Service connection failed"
      circuitBreakerState := none
      details := some ("Cannot connect to " ++ urlOrUnknown error)
      errorCode := error.code, stack := none, orderDetails := none, payment := none }
  else if error.code = some "ETIMEDOUT" then
    { status := 500, success := some false, error := some "Service timeout"
      circuitBreakerState := none
      details := some ("Timeout connecting to " ++ urlOrUnknown error)
      errorCode := error.code, stack := none, orderDetails := none, payment := none }
  else
    { status := 500, success := some false, error := some "Order processing failed"
      circuitBreakerState := none
      details := some error.message
      errorCode := error.code
      stack := if rt.development then error.stack else none
      orderDetails := none, payment := none }

/-- The handler of `POST /order` (lines 71-172), run on the breaker `cb`.

`catalogGet url` stands for `axios.get(url, { timeout: 5000 })` and `paymentPost url data` for
`axios.post(url, data, { timeout: 8000, ... })`; `now`, `orderTime` and `failTime` are the
readings of `Date.now()` in `call` (line 22), in the payment closure (line 105) and in
`onFailure` (line 49). -/
def postOrder {σ α : Type} (rt : JsRuntime) (cb : CircuitBreaker) (body : OrderBody)
    (catalogGet : String → σ → Except JsError Book × σ)
    (paymentPost : String → PaymentRequest → σ → Except JsError α × σ)
    (now orderTime failTime : Int) (w : σ) : HandlerResult σ α :=
  if invalidOrder rt body then
    { response := invalidOrderResponse, breaker := cb, world := w }
  else
    match catalogGet ("http://catalog:5000/books/" ++ body.bookID.toStr rt) w with
    | (.error error, w1) => { response := handleError rt cb error, breaker := cb, world := w1 }
    | (.ok book, w1) =>
      let total := totalCost book.price (body.quantity.toNumber rt)
      let r := cb.call now
        (paymentPost "http://payment:5002/pay"
          { amount := total, orderId := "ORDER-" ++ toString orderTime })
        w1 failTime
      match r.outcome with
      | .error error =>
        { response := handleError rt r.breaker error, breaker := r.breaker, world := r.world }
      | .ok paymentResult =>
        { response :=
            { status := 200, success := some true, error := none
              circuitBreakerState := none, details := none, errorCode := none, stack := none
              orderDetails := some
                { book := book.title
                  quantity := body.quantity
                  unitPrice := ((book.price.mul (.fin 100)).round).div (.fin 100)
                  totalCost := ((total.mul (.fin 100)).round).div (.fin 100) }
              payment := some paymentResult }
          breaker := r.breaker
          world := r.world }

/-! ## Catalog service (`src/catalog-service/server.js`) -/

/-- The `books` table (lines 9-15); a price literal denotes the nearest binary64 value. -/
def books : List Book :=
  [ { bookID := .fin 1, title := "The Great Gatsby", price := roundBinary64 (1599 / 100) },
    { bookID := .fin 2, title := "To Kill a Mockingbird", price := roundBinary64 (1250 / 100) },
    { bookID := .fin 3, title := "1984", price := roundBinary64 (1475 / 100) },
    { bookID := .fin 4, title := "Pride and Prejudice", price := roundBinary64 (1325 / 100) },
    { bookID := .fin 5, title := "The Catcher in the Rye", price := roundBinary64 (1680 / 100) } ]

/-- The white space that `parseInt` skips at the start of its argument. -/
def isJsWhitespace (c : Char) : Bool :=
  c.toNat ∈ [9, 10, 11, 12, 13, 32, 160, 5760, 8232, 8233, 8239, 8287, 12288, 65279]
    || (8192 ≤ c.toNat && c.toNat ≤ 8202)

/-- The value of a character as a digit in the given radix. -/
def digitValue (radix : Nat) (c : Char) : Option Nat :=
  let v :=
    if 48 ≤ c.toNat ∧ c.toNat ≤ 57 then c.toNat - 48
    else if 97 ≤ c.toNat ∧ c.toNat ≤ 122 then c.toNat - 87
    else if 65 ≤ c.toNat ∧ c.toNat ≤ 90 then c.toNat - 55
    else radix
  if v < radix then some v else none

/-- The digits at the start of a character list, as numbers. -/
def leadingDigits (radix : Nat) : List Char → List Nat
  | [] => []
  | c :: rest =>
    match digitValue radix c with
    | some v => v :: leadingDigits radix rest
    | none => []

/-- JavaScript `parseInt(s)` with no radix argument: white space, an optional sign, an optional
`0x` prefix, then the longest run of digits; `NaN` when there is no digit. -/
def parseInt (s : String) : JsNum :=
  let cs := s.toList.dropWhile isJsWhitespace
  let negative := cs.head? = some '-'
  let cs1 := if cs.head? = some '-' ∨ cs.head? = some '+' then cs.tail else cs
  let hex := cs1.take 2 = ['0', 'x'] ∨ cs1.take 2 = ['0', 'X']
  let radix := if hex then 16 else 10
  let ds := leadingDigits radix (if hex then cs1.drop 2 else cs1)
  if ds = [] then .nan
  else
    roundBinary64
      (if negative then -((ds.foldl (fun a d => a * radix + d) 0 : Nat) : ℚ)
        else ((ds.foldl (fun a d => a * radix + d) 0 : Nat) : ℚ))

/-- The lookup `books.find(b => b.bookID === bookID)` of line 26. -/
def findBook (bookID : JsNum) : Option Book :=
  books.find? (fun b => b.bookID.strictEq bookID)

/-- The answer of `GET /books/:id`: status and body. -/
inductive CatalogReply where
  | found (book : Book)
  | notFound (error : String)
  deriving DecidableEq

/-- The HTTP status of a catalog answer: `res.json` answers 200, line 33 answers 404. -/
def CatalogReply.status : CatalogReply → Nat
  | .found _ => 200
  | .notFound _ => 404

/-- The handler of `GET /books/:id` (lines 24-35); `id` is `req.params.id`. -/
def getBookById (id : String) : CatalogReply :=
  match findBook (parseInt id) with
  | some book => .found book
  | none => .notFound "Book not found"

/-! ## Conversions between numbers and text

The printing of a number (`Number::toString`) and the reading of a text as a number
(`StringToNumber`), as JavaScript defines them. -/

/-- The power `10 ^ z` for an integer exponent. -/
def pow10 (z : Int) : ℚ :=
  if 0 ≤ z then ((10 ^ z.toNat : ℕ) : ℚ) else 1 / ((10 ^ (-z).toNat : ℕ) : ℚ)

/-- The least `n` at or after `start` with `q < 10 ^ n`, searched over `fuel` steps. -/
def decimalExponentFrom (q : ℚ) : Nat → Int → Int
  | 0, n => n
  | fuel + 1, n => if q < pow10 n then n else decimalExponentFrom q fuel (n + 1)

/-- The integer `n` with `10 ^ (n - 1) ≤ q < 10 ^ n`, for positive `q`. -/
def decimalExponent (q : ℚ) : Int :=
  decimalExponentFrom q 4 (floorLog2 q.num.natAbs q.den * 30103 / 100000 - 1)

/-- The shortest decimal significand: the least number `k` of digits, from `k` on, and the
integer `s` of `k` digits for which `s × 10 ^ (n - k)` rounds to `q`; of two such `s` the one
nearer to `q`. -/
def shortestDigitsFrom (q : ℚ) (n : Int) : Nat → Nat → Nat × Nat
  | 0, k => (k, (⌊q / pow10 (n - k)⌋).toNat)
  | fuel + 1, k =>
    let lo := (⌊q / pow10 (n - k)⌋).toNat
    let okLo := roundBinary64 (lo * pow10 (n - k)) = .fin q
    let okHi := roundBinary64 ((lo + 1 : ℕ) * pow10 (n - k)) = .fin q
    if okLo ∧ okHi then
      (if q / pow10 (n - k) - lo < (lo + 1 : ℕ) - q / pow10 (n - k) then (k, lo)
        else if (lo + 1 : ℕ) - q / pow10 (n - k) < q / pow10 (n - k) - lo then (k, lo + 1)
        else if lo % 2 = 0 then (k, lo) else (k, lo + 1))
    else if okLo then (k, lo)
    else if okHi then (k, lo + 1)
    else shortestDigitsFrom q n fuel (k + 1)

/-- JavaScript `Number::toString` on a positive finite number. -/
def positiveToString (q : ℚ) : String :=
  let n0 := decimalExponent q
  let ks := shortestDigitsFrom q n0 17 1
  -- a significand that rounded up to `10 ^ k` is the single digit `1`, one place higher
  let k := if ks.2 = 10 ^ ks.1 then 1 else ks.1
  let s := if ks.2 = 10 ^ ks.1 then 1 else ks.2
  let n := if ks.2 = 10 ^ ks.1 then n0 + 1 else n0
  let ds := (Nat.repr s).toList
  if (k : Int) ≤ n ∧ n ≤ 21 then
    String.mk (ds ++ List.replicate (n - k).toNat '0')
  else if 0 < n ∧ n ≤ 21 then
    String.mk (ds.take n.toNat ++ '.' :: ds.drop n.toNat)
  else if -6 < n ∧ n ≤ 0 then
    String.mk ('0' :: '.' :: List.replicate (-n).toNat '0' ++ ds)
  else
    String.mk
      ((if k = 1 then ds else ds.take 1 ++ '.' :: ds.drop 1)
        ++ 'e' :: (if n - 1 < 0 then '-' else '+') :: (Nat.repr (n - 1).natAbs).toList)

/-- JavaScript `Number::toString` on a finite number. -/
def numberToString (q : ℚ) : String :=
  if q = 0 then "0"
  else if q < 0 then "-" ++ positiveToString (-q)
  else positiveToString q

/-- The digits at the start of a character list, and what follows them. -/
def spanDigits (radix : Nat) : List Char → List Nat × List Char
  | [] => ([], [])
  | c :: rest =>
    match digitValue radix c with
    | some v => (v :: (spanDigits radix rest).1, (spanDigits radix rest).2)
    | none => ([], c :: rest)

/-- The number written by a list of digits in the given radix. -/
def digitsValue (radix : Nat) (ds : List Nat) : Nat :=
  ds.foldl (fun a d => a * radix + d) 0

/-- The exponent part of a decimal literal: nothing, or `e` or `E`, an optional sign and at least
one digit, up to the end of the text; `none` when what is left is anything else. -/
def exponentPart : List Char → Option Int
  | [] => some 0
  | c :: rest =>
    if c = 'e' ∨ c = 'E' then
      let negative := rest.head? = some '-'
      let body := if rest.head? = some '-' ∨ rest.head? = some '+' then rest.tail else rest
      if (spanDigits 10 body).1 ≠ [] ∧ (spanDigits 10 body).2 = [] then
        some (if negative then -(digitsValue 10 (spanDigits 10 body).1 : Int)
          else (digitsValue 10 (spanDigits 10 body).1 : Int))
      else none
    else none

/-- An unsigned decimal literal (`12`, `12.`, `12.5`, `.5`, each with an optional exponent part)
as a rational; `none` when the text is not one. -/
def unsignedDecimal (cs : List Char) : Option ℚ :=
  let whole := spanDigits 10 cs
  let hasPoint := whole.2.head? = some '.'
  let frac := if hasPoint then spanDigits 10 whole.2.tail else ([], whole.2)
  if whole.1 = [] ∧ frac.1 = [] then none
  else
    match exponentPart frac.2 with
    | none => none
    | some e =>
      some (((digitsValue 10 (whole.1 ++ frac.1) : ℕ) : ℚ) * pow10 (e - frac.1.length))

/-- JavaScript `StringToNumber`: white space is trimmed, the empty text is `0`; then a binary,
octal or hexadecimal integer with its prefix, or an optionally signed `Infinity` or decimal
literal; anything else is `NaN`. -/
def stringToNumber (s : String) : JsNum :=
  let cs := ((s.toList.dropWhile isJsWhitespace).reverse.dropWhile isJsWhitespace).reverse
  let radix :=
    if cs.take 2 = ['0', 'x'] ∨ cs.take 2 = ['0', 'X'] then 16
    else if cs.take 2 = ['0', 'o'] ∨ cs.take 2 = ['0', 'O'] then 8
    else if cs.take 2 = ['0', 'b'] ∨ cs.take 2 = ['0', 'B'] then 2
    else 10
  if cs = [] then .fin 0
  else if radix ≠ 10 then
    (if (spanDigits radix (cs.drop 2)).1 ≠ [] ∧ (spanDigits radix (cs.drop 2)).2 = [] then
      roundBinary64 (digitsValue radix (spanDigits radix (cs.drop 2)).1 : ℕ)
    else .nan)
  else
    let negative := cs.head? = some '-'
    let body := if cs.head? = some '-' ∨ cs.head? = some '+' then cs.tail else cs
    if body = "Infinity".toList then .inf negative
    else
      match unsignedDecimal body with
      | none => .nan
      | some q => roundBinary64 (if negative then -q else q)

/-! ## A closed environment for concrete runs -/

/-- A world that records the requests sent to the two remote services. -/
structure Traffic where
  catalogUrls : List String
  payments : List PaymentRequest
  deriving DecidableEq

/-- The runtime of the concrete runs: JavaScript's own conversions, outside development mode. -/
def plainRuntime : JsRuntime :=
  { stringToNumber := stringToNumber, numberToString := numberToString, development := false }

/-- The catalog service behind axios: a request under `http://catalog:5000/books/` reaches
`GET /books/:id` with the rest of the URL as `id`; axios resolves with the body of a 200 answer
and rejects on a 404 answer. This holds for a rest of the URL that is one path segment as it
stands: not empty, and free of white space, `/`, `?`, `#` and `%`, as are the numerals printed
for numbers and plain words. Other texts are rewritten when the URL is parsed, or reach another
route, and are outside this definition. -/
def catalogViaAxios (url : String) (w : Traffic) : Except JsError Book × Traffic :=
  match getBookById (url.drop "http://catalog:5000/books/".length) with
  | .found book => (.ok book, { w with catalogUrls := w.catalogUrls ++ [url] })
  | .notFound _ =>
    (.error (axiosStatusError 404 url), { w with catalogUrls := w.catalogUrls ++ [url] })

/-- A payment service that answers every request with status 500. -/
def paymentRejecting (url : String) (req : PaymentRequest) (w : Traffic) :
    Except JsError String × Traffic :=
  (.error (axiosStatusError 500 url), { w with payments := w.payments ++ [req] })

/-- A payment service that accepts every request. -/
def paymentAccepting (_url : String) (req : PaymentRequest) (w : Traffic) :
    Except JsError String × Traffic :=
  (.ok "completed", { w with payments := w.payments ++ [req] })

/-- An error as raised for a connection that could not be established. -/
def connectionRefused (url : String) : JsError :=
  { message := "connect ECONNREFUSED"
    code := some "ECONNREFUSED"
    responseStatus := none
    configUrl := some url
    stack := none }

/-- A catalog service that cannot be reached. -/
def catalogUnreachable (url : String) (w : Traffic) : Except JsError Book × Traffic :=
  (.error (connectionRefused url), { w with catalogUrls := w.catalogUrls ++ [url] })

/-- A payment service that cannot be reached. -/
def paymentUnreachable (url : String) (req : PaymentRequest) (w : Traffic) :
    Except JsError String × Traffic :=
  (.error (connectionRefused url), { w with payments := w.payments ++ [req] })

/-- An error as axios raises it when the time limit given in the request options (`timeout`,
lines 87 and 107) runs out before an answer. -/
def axiosTimeoutError (ms : Nat) (url : String) : JsError :=
  { message := "timeout of " ++ toString ms ++ "ms exceeded"
    code := some "ECONNABORTED"
    responseStatus := none
    configUrl := some url
    stack := none }

/-- An error as raised when the host name of the service cannot be resolved. -/
def hostNotFound (url : String) : JsError :=
  { message := "getaddrinfo ENOTFOUND"
    code := some "ENOTFOUND"
    responseStatus := none
    configUrl := some url
    stack := none }

/-- A catalog service that does not answer within the 5000 ms of line 87. -/
def catalogTimingOut (url : String) (w : Traffic) : Except JsError Book × Traffic :=
  (.error (axiosTimeoutError 5000 url), { w with catalogUrls := w.catalogUrls ++ [url] })

/-- A payment service that does not answer within the 8000 ms of line 107. -/
def paymentTimingOut (url : String) (req : PaymentRequest) (w : Traffic) :
    Except JsError String × Traffic :=
  (.error (axiosTimeoutError 8000 url), { w with payments := w.payments ++ [req] })

/-- A payment service whose host name cannot be resolved. -/
def paymentUnresolved (url : String) (req : PaymentRequest) (w : Traffic) :
    Except JsError String × Traffic :=
  (.error (hostNotFound url), { w with payments := w.payments ++ [req] })

/-- A payment service that answers every request with status 404. -/
def paymentMissing (url : String) (req : PaymentRequest) (w : Traffic) :
    Except JsError String × Traffic :=
  (.error (axiosStatusError 404 url), { w with payments := w.payments ++ [req] })

/-- A payment request that ends in an error with no response and a code the handler does not
know. -/
def paymentReset (url : String) (req : PaymentRequest) (w : Traffic) :
    Except JsError String × Traffic :=
  (.error
      { message := "socket hang up"
        code := some "ECONNRESET"
        responseStatus := none
        configUrl := some url
        stack := none },
    { w with payments := w.payments ++ [req] })

/-! ## Runs of the order handler -/

/-- One order request together with the clock readings taken while it is handled. -/
structure OrderEvent where
  body : OrderBody
  now : Int
  orderTime : Int
  failTime : Int

/-- An order request for a book and a quantity given as numbers, with all clock readings equal
to `t`. -/
def orderAt (bookID quantity : ℚ) (t : Int) : OrderEvent :=
  { body := { bookID := .num (.fin bookID), quantity := .num (.fin quantity) }
    now := t, orderTime := t, failTime := t }

/-- A world in which nothing has been sent yet. -/
def noTraffic : Traffic := { catalogUrls := [], payments := [] }

/-- Whether the catalog lookup made for the request succeeds in world `w`. -/
def catalogSucceeds {σ : Type} (rt : JsRuntime)
    (catalogGet : String → σ → Except JsError Book × σ) (ev : OrderEvent) (w : σ) : Bool :=
  match (catalogGet ("http://catalog:5000/books/" ++ ev.body.bookID.toStr rt) w).1 with
  | .ok _ => true
  | .error _ => false

/-- Whether, for the request handled in world `w`, the catalog lookup succeeds and the payment
request the handler builds from it fails when it is sent. -/
def paymentFails {σ α : Type} (rt : JsRuntime)
    (catalogGet : String → σ → Except JsError Book × σ)
    (paymentPost : String → PaymentRequest → σ → Except JsError α × σ)
    (ev : OrderEvent) (w : σ) : Bool :=
  match catalogGet ("http://catalog:5000/books/" ++ ev.body.bookID.toStr rt) w with
  | (.error _, _) => false
  | (.ok book, w1) =>
    match (paymentPost "http://payment:5002/pay"
        { amount := totalCost book.price (ev.body.quantity.toNumber rt)
          orderId := "ORDER-" ++ toString ev.orderTime } w1).1 with
    | .ok _ => false
    | .error _ => true

/-- The handler applied to one request, from a breaker and a world. -/
def handleEvent {σ α : Type} (rt : JsRuntime)
    (catalogGet : String → σ → Except JsError Book × σ)
    (paymentPost : String → PaymentRequest → σ → Except JsError α × σ)
    (cb : CircuitBreaker) (w : σ) (ev : OrderEvent) : HandlerResult σ α :=
  postOrder rt cb ev.body catalogGet paymentPost ev.now ev.orderTime ev.failTime w

/-- The breaker and the world after a sequence of requests handled one after the other. -/
def handleEvents {σ α : Type} (rt : JsRuntime)
    (catalogGet : String → σ → Except JsError Book × σ)
    (paymentPost : String → PaymentRequest → σ → Except JsError α × σ) :
    CircuitBreaker → σ → List OrderEvent → CircuitBreaker × σ
  | cb, w, [] => (cb, w)
  | cb, w, ev :: rest =>
    handleEvents rt catalogGet paymentPost
      (handleEvent rt catalogGet paymentPost cb w ev).breaker
      (handleEvent rt catalogGet paymentPost cb w ev).world rest

/-- The values `!v` holds for, written out. -/
def JsVal.Falsy (v : JsVal) : Prop :=
  v = .undefined ∨ v = .null ∨ v = .bool false ∨ v = .num .nan ∨ v = .num (.fin 0) ∨ v = .str ""

/-- The truthy values `v <= 0` holds for, written out: a number that is negative (or minus
infinity), or a non-empty string that converts to a number that is zero or negative. -/
def JsVal.NonPositive (rt : JsRuntime) (v : JsVal) : Prop :=
  (∃ q : ℚ, q < 0 ∧ v = .num (.fin q)) ∨ v = .num (.inf true) ∨
    (∃ s : String, s ≠ "" ∧ v = .str s ∧ (rt.stringToNumber s).leZero = true)

/-- The failing step of a run of the handler. -/
inductive Failure where
  | invalid
  | catalog (error : JsError)
  | breakerOpen
  | payment (error : JsError)
  deriving DecidableEq

/-- The step at which the handler fails on a request, following its control flow; `none` when
the order goes through. -/
def failureOf {σ α : Type} (rt : JsRuntime) (cb : CircuitBreaker) (body : OrderBody)
    (catalogGet : String → σ → Except JsError Book × σ)
    (paymentPost : String → PaymentRequest → σ → Except JsError α × σ)
    (now orderTime : Int) (w : σ) : Option Failure :=
  if invalidOrder rt body then some .invalid
  else
    match catalogGet ("http://catalog:5000/books/" ++ body.bookID.toStr rt) w with
    | (.error error, _) => some (.catalog error)
    | (.ok book, w1) =>
      match cb.enter now with
      | .error _ => some .breakerOpen
      | .ok _ =>
        match (paymentPost "http://payment:5002/pay"
            { amount := totalCost book.price (body.quantity.toNumber rt)
              orderId := "ORDER-" ++ toString orderTime } w1).1 with
        | .error error => some (.payment error)
        | .ok _ => none

/-- The failure kinds of the error taxonomy. -/
inductive FailureKind where
  | InvalidRequest
  | BookNotFound
  | CatalogUnavailable
  | PaymentCircuitOpen
  | PaymentRejected
  | PaymentTimeout
  | PaymentUnreachable
  | Unclassified
  deriving DecidableEq

/-- The kind of a failure, after the taxonomy: a catalog failure is `BookNotFound` when the
catalog answered 404 and `CatalogUnavailable` otherwise; a payment failure is `PaymentRejected`
when the payment service answered, `PaymentTimeout` when the request timed out (`ECONNABORTED`,
the code axios gives to the time limit set on line 107, or `ETIMEDOUT`, a connection attempt
that timed out), `PaymentUnreachable` when no connection could be made (`ECONNREFUSED`,
`ENOTFOUND`, `EHOSTUNREACH`), and `Unclassified` otherwise. -/
def Failure.kind : Failure → FailureKind
  | .invalid => .InvalidRequest
  | .catalog error =>
    if error.responseStatus = some 404 then .BookNotFound else .CatalogUnavailable
  | .breakerOpen => .PaymentCircuitOpen
  | .payment error =>
    if error.responseStatus.isSome then .PaymentRejected
    else if error.code = some "ECONNABORTED" ∨ error.code = some "ETIMEDOUT" then
      .PaymentTimeout
    else if error.code = some "ECONNREFUSED" ∨ error.code = some "ENOTFOUND"
        ∨ error.code = some "EHOSTUNREACH" then
      .PaymentUnreachable
    else .Unclassified

/-- The errors of a failure are as the two services and axios produce them: no error carries
the breaker's own message, and the payment service does not answer 404. -/
def Failure.AxiosShaped : Failure → Prop
  | .invalid => True
  | .breakerOpen => True
  | .catalog error =>
    error.message ≠ "Payment Service temporarily unavailable"
  | .payment error =>
    error.message ≠ "Payment Service temporarily unavailable" ∧
      error.responseStatus ≠ some 404

/-- The kinds that the answers of the handler tell apart from every other kind. -/
def FailureKind.ToldApart (k : FailureKind) : Prop :=
  k = .InvalidRequest ∨ k = .BookNotFound ∨ k = .PaymentCircuitOpen

/-- What an observer keys on: the HTTP status and the `error` field of the answer. -/
def Response.observable {α : Type} (r : Response α) : Nat × Option String :=
  (r.status, r.error)

/-! ## Identifiers -/

/-- The transaction identifier built by the payment service
(`src/payment-service/server.js`, line 28), `TXN-${Date.now()}-${suffix}`, where `suffix` stands
for the value of `Math.random().toString(36).substr(2, 9)`. -/
def transactionId (now : Int) (suffix : String) : String :=
  "TXN-" ++ toString now ++ "-" ++ suffix

/-! ## Properties of the circuit breaker -/

section Breaker

/-- A call on a breaker that is not `OPEN` runs the operation and applies `onSuccess` or
`onFailure`. -/
theorem CircuitBreaker.step_of_not_open (cb : CircuitBreaker) (ev : CallEvent)
    (h : cb.state ≠ .OPEN) :
    cb.step ev = if ev.fails then cb.onFailure ev.failTime else cb.onSuccess := by
  obtain ⟨now, result, failTime⟩ := ev
  cases result <;>
    simp [CircuitBreaker.step, CircuitBreaker.call, CircuitBreaker.enter, CallEvent.fails, h]

/-- A failing call below the threshold keeps a `CLOSED` breaker `CLOSED` and counts. -/
theorem CircuitBreaker.step_fail_below (cb : CircuitBreaker) (ev : CallEvent)
    (hs : cb.state = .CLOSED) (hf : ev.fails = true) (hlt : cb.failureCount + 1 < cb.threshold) :
    (cb.step ev).state = .CLOSED ∧ (cb.step ev).failureCount = cb.failureCount + 1 ∧
      (cb.step ev).threshold = cb.threshold := by
  rw [CircuitBreaker.step_of_not_open cb ev (by simp [hs]), if_pos hf]
  have : ¬ cb.threshold ≤ cb.failureCount + 1 := by omega
  simp [CircuitBreaker.onFailure, this, hs]

/-- A failing call that reaches the threshold opens a `CLOSED` breaker. -/
theorem CircuitBreaker.step_fail_reach (cb : CircuitBreaker) (ev : CallEvent)
    (hs : cb.state = .CLOSED) (hf : ev.fails = true) (hge : cb.threshold ≤ cb.failureCount + 1) :
    (cb.step ev).state = .OPEN := by
  rw [CircuitBreaker.step_of_not_open cb ev (by simp [hs]), if_pos hf]
  simp [CircuitBreaker.onFailure, hge]

/-- While fewer failures than the threshold have been seen, a run of failing calls on a `CLOSED`
breaker only counts them. -/
theorem CircuitBreaker.run_fails_below (evs : List CallEvent) :
    ∀ cb : CircuitBreaker, cb.state = .CLOSED → (∀ ev ∈ evs, ev.fails = true) →
      cb.failureCount + evs.length < cb.threshold →
      (cb.run evs).state = .CLOSED ∧ (cb.run evs).failureCount = cb.failureCount + evs.length ∧
        (cb.run evs).threshold = cb.threshold := by
  induction evs with
  | nil => intro cb hs _ _; simp [CircuitBreaker.run, hs]
  | cons ev rest ih =>
    intro cb hs hall hlt
    have hev : ev.fails = true := hall ev (List.mem_cons_self _ _)
    have hlen : (ev :: rest).length = rest.length + 1 := List.length_cons _ _
    obtain ⟨h1, h2, h3⟩ := CircuitBreaker.step_fail_below cb ev hs hev (by omega)
    have ih1 := ih (cb.step ev) h1 (fun e he => hall e (List.mem_cons_of_mem _ he))
      (by omega)
    have hrun : cb.run (ev :: rest) = (cb.step ev).run rest := rfl
    rw [hrun]
    refine ⟨ih1.1, ?_, ?_⟩
    · rw [ih1.2.1, h2, hlen]; omega
    · rw [ih1.2.2, h3]

/-- Running a sequence followed by one more call. -/
theorem CircuitBreaker.run_append_singleton (cb : CircuitBreaker) (evs : List CallEvent)
    (ev : CallEvent) : cb.run (evs ++ [ev]) = (cb.run evs).step ev := by
  simp [CircuitBreaker.run, List.foldl_append]

/-- Method `onFailure` never changes the threshold, and either opens the breaker or leaves its
state alone with a count below the threshold. -/
theorem CircuitBreaker.onFailure_cases (cb : CircuitBreaker) (t : Int) :
    (cb.onFailure t).threshold = cb.threshold ∧
      (cb.onFailure t).lastFailureTime = some t ∧
      (cb.onFailure t).resetTimeout = cb.resetTimeout ∧
      (cb.onFailure t).failureCount = cb.failureCount + 1 ∧
      (((cb.onFailure t).state = .OPEN ∧ cb.threshold ≤ cb.failureCount + 1) ∨
        ((cb.onFailure t).state = cb.state ∧ cb.failureCount + 1 < cb.threshold)) := by
  unfold CircuitBreaker.onFailure
  by_cases h : cb.threshold ≤ cb.failureCount + 1
  · simp [h]
  · simp [h]; omega

/-- The three ways a call can go: refused, run and succeeded, run and failed. In the last two the
operation found the breaker as `enter` left it. -/
theorem CircuitBreaker.step_cases (cb : CircuitBreaker) (ev : CallEvent) :
    (cb.enter ev.now = .error breakerOpenError ∧ cb.step ev = cb) ∨
      (∃ cb1, cb.enter ev.now = .ok cb1 ∧ ev.fails = false ∧ cb.step ev = cb1.onSuccess) ∨
      (∃ cb1, cb.enter ev.now = .ok cb1 ∧ ev.fails = true ∧
        cb.step ev = cb1.onFailure ev.failTime) := by
  obtain ⟨now, result, failTime⟩ := ev
  unfold CircuitBreaker.step CircuitBreaker.call
  cases hent : cb.enter now with
  | error e =>
    left
    unfold CircuitBreaker.enter at hent
    split_ifs at hent
    simp_all
  | ok cb1 =>
    right
    cases result with
    | ok r => left; exact ⟨cb1, rfl, rfl, rfl⟩
    | error e => right; exact ⟨cb1, rfl, rfl, rfl⟩

/-- What `enter` does to the breaker it lets through: nothing, or `OPEN` becomes `HALF_OPEN`. -/
theorem CircuitBreaker.enter_ok (cb cb1 : CircuitBreaker) (now : Int)
    (h : cb.enter now = .ok cb1) :
    cb1.threshold = cb.threshold ∧ cb1.failureCount = cb.failureCount ∧
      cb1.resetTimeout = cb.resetTimeout ∧
      ((cb.state ≠ .OPEN ∧ cb1 = cb) ∨
        (cb.state = .OPEN ∧ cb1.state = .HALF_OPEN ∧
          now - cb.lastFailureTime.getD 0 > cb.resetTimeout)) := by
  unfold CircuitBreaker.enter at h
  split_ifs at h with h1 h2
  · cases h; simp [h1, h2]
  · cases h; simp [h1]

/-- A fresh breaker with a positive threshold satisfies the invariant. -/
theorem CircuitBreaker.inv_new (N timeout : Nat) (resetTimeout : Int) (hN : 1 ≤ N) :
    CircuitBreaker.Inv N (CircuitBreaker.new N timeout resetTimeout) := by
  simp [CircuitBreaker.Inv, CircuitBreaker.new]; omega

/-- Every sequential call preserves the invariant. -/
theorem CircuitBreaker.inv_step (N : Nat) (hN : 1 ≤ N) (cb : CircuitBreaker) (ev : CallEvent)
    (hinv : CircuitBreaker.Inv N cb) : CircuitBreaker.Inv N (cb.step ev) := by
  obtain ⟨hth, hcl, hop, hho⟩ := hinv
  rcases CircuitBreaker.step_cases cb ev with ⟨_, h⟩ | ⟨cb1, hent, _, h⟩ | ⟨cb1, hent, _, h⟩
  · rw [h]; exact ⟨hth, hcl, hop, hho⟩
  · obtain ⟨h1, _, _, _⟩ := CircuitBreaker.enter_ok cb cb1 ev.now hent
    rw [h]
    refine ⟨by simp [CircuitBreaker.onSuccess, h1, hth], ?_, ?_, ?_⟩
    · intro _; simp [CircuitBreaker.onSuccess]; omega
    · simp [CircuitBreaker.onSuccess]
    · simp [CircuitBreaker.onSuccess]
  · obtain ⟨h1, h2, _, h4⟩ := CircuitBreaker.enter_ok cb cb1 ev.now hent
    obtain ⟨f1, _, _, f4, f5⟩ := CircuitBreaker.onFailure_cases cb1 ev.failTime
    rw [h]
    refine ⟨by rw [f1, h1, hth], ?_, ?_, ?_⟩
    · intro hc
      rcases f5 with ⟨f5, _⟩ | ⟨_, f5⟩
      · rw [f5] at hc; cases hc
      · rw [f4]; omega
    · intro hopen
      rcases f5 with ⟨_, f5⟩ | ⟨f5, f6⟩
      · rw [f4]; omega
      · rcases h4 with ⟨h4, h5⟩ | ⟨h4, h5, _⟩
        · subst h5
          rw [f5] at hopen
          exact absurd hopen h4
        · have := hop h4
          omega
    · rcases f5 with ⟨f5, _⟩ | ⟨f5, f6⟩
      · rw [f5]; simp
      · rw [f5]
        rcases h4 with ⟨_, h5⟩ | ⟨h4, _, _⟩
        · subst h5; exact hho
        · have := hop h4
          omega

/-- Every state reached from a fresh breaker with a positive threshold satisfies the
invariant. -/
theorem CircuitBreaker.inv_run (N timeout : Nat) (resetTimeout : Int) (hN : 1 ≤ N)
    (evs : List CallEvent) :
    CircuitBreaker.Inv N ((CircuitBreaker.new N timeout resetTimeout).run evs) := by
  have key : ∀ (l : List CallEvent) (cb : CircuitBreaker),
      CircuitBreaker.Inv N cb → CircuitBreaker.Inv N (cb.run l) := by
    intro l
    induction l with
    | nil => intro cb h; exact h
    | cons ev rest ih => intro cb h; exact ih (cb.step ev) (CircuitBreaker.inv_step N hN cb ev h)
  exact key evs _ (CircuitBreaker.inv_new N timeout resetTimeout hN)

/-- C1: for every threshold `N ≥ 1`, a fresh breaker is `OPEN` after `N` consecutive calls whose
operation fails, and is `CLOSED` with `failureCount = 0` after `N - 1` such calls followed by one
call whose operation succeeds (whatever the clock readings). -/
theorem C1_trips_at_threshold_and_success_resets (N timeout : Nat) (resetTimeout : Int)
    (hN : 1 ≤ N) (evsN evsP : List CallEvent) (ok : CallEvent)
    (hlenN : evsN.length = N) (hallN : ∀ ev ∈ evsN, ev.fails = true)
    (hlenP : evsP.length = N - 1) (hallP : ∀ ev ∈ evsP, ev.fails = true)
    (hok : ok.fails = false) :
    ((CircuitBreaker.new N timeout resetTimeout).run evsN).state = .OPEN ∧
      ((CircuitBreaker.new N timeout resetTimeout).run (evsP ++ [ok])).state = .CLOSED ∧
      ((CircuitBreaker.new N timeout resetTimeout).run (evsP ++ [ok])).failureCount = 0 := by
  have hfirst : ∀ l : List CallEvent, l.length = N - 1 → (∀ ev ∈ l, ev.fails = true) →
      ((CircuitBreaker.new N timeout resetTimeout).run l).state = .CLOSED ∧
        ((CircuitBreaker.new N timeout resetTimeout).run l).failureCount = N - 1 ∧
        ((CircuitBreaker.new N timeout resetTimeout).run l).threshold = N := by
    intro l hl hall
    have h := CircuitBreaker.run_fails_below l (CircuitBreaker.new N timeout resetTimeout) rfl hall
      (by simp only [CircuitBreaker.new]; omega)
    simpa [CircuitBreaker.new, hl] using h
  refine ⟨?_, ?_⟩
  · -- split the `N` failing calls into the first `N - 1` and the last one
    rcases List.eq_nil_or_concat evsN with hnil | ⟨l, last, hcat⟩
    · subst hnil; simp at hlenN; omega
    · subst hcat
      have hl : l.length = N - 1 := by simp at hlenN; omega
      obtain ⟨h1, h2, h3⟩ := hfirst l hl (fun ev hev => hallN ev (by simp [hev]))
      have hlast : last.fails = true := hallN last (by simp)
      have hcc : l.concat last = l ++ [last] := by simp
      rw [hcc, CircuitBreaker.run_append_singleton]
      exact CircuitBreaker.step_fail_reach _ last h1 hlast (by rw [h2, h3]; omega)
  · obtain ⟨h1, _, _⟩ := hfirst evsP hlenP hallP
    rw [CircuitBreaker.run_append_singleton,
      CircuitBreaker.step_of_not_open _ ok (by rw [h1]; decide), hok]
    simp [CircuitBreaker.onSuccess]

/-- Witness of C1 at threshold 3: three failing calls, and two failing calls then a success. -/
theorem C1_trips_at_threshold_and_success_resets_witness :
    ((CircuitBreaker.new 3 60000 10000).run
        [failingEvent 10, failingEvent 20, failingEvent 30]).state = .OPEN ∧
      ((CircuitBreaker.new 3 60000 10000).run
        ([failingEvent 10, failingEvent 20] ++ [succeedingEvent 30])).state = .CLOSED ∧
      ((CircuitBreaker.new 3 60000 10000).run
        ([failingEvent 10, failingEvent 20] ++ [succeedingEvent 30])).failureCount = 0 :=
  C1_trips_at_threshold_and_success_resets 3 60000 10000 (by decide)
    [failingEvent 10, failingEvent 20, failingEvent 30] [failingEvent 10, failingEvent 20]
    (succeedingEvent 30) rfl (by simp [failingEvent, CallEvent.fails]) rfl
    (by simp [failingEvent, CallEvent.fails]) rfl

/-- C2: on an `OPEN` breaker, at every clock reading `now` with
`now - lastFailureTime < resetTimeout`, `call` throws the breaker-open error
('Payment Service temporarily unavailable'), does not run the wrapped operation (the world is
untouched and a call counter around the operation stays at zero) and leaves every field of the
breaker unchanged. -/
theorem C2_open_fast_fails {σ α : Type} (cb : CircuitBreaker) (now failTime : Int)
    (op : σ → Except JsError α × σ) (w : σ)
    (hopen : cb.state = .OPEN)
    (hlt : now - cb.lastFailureTime.getD 0 < cb.resetTimeout) :
    (cb.call now op w failTime).outcome = .error breakerOpenError ∧
      breakerOpenError.message = "Payment Service temporarily unavailable" ∧
      (cb.call now op w failTime).world = w ∧
      (cb.call now (counting op) (w, 0) failTime).world.2 = 0 ∧
      (cb.call now op w failTime).breaker = cb := by
  have hnot : ¬ (now - cb.lastFailureTime.getD 0 > cb.resetTimeout) := by omega
  simp [CircuitBreaker.call, CircuitBreaker.enter, hopen, hnot, breakerOpenError,
    breakerOpenMessage]

/-- Witness of C2: the payment breaker opened at time 1000 and called at time 5000. -/
theorem C2_open_fast_fails_witness :
    ((CircuitBreaker.mk 3 60000 10000 3 (some 1000) .OPEN).call 5000
        (fun w : Unit => ((.ok 7 : Except JsError Nat), w)) () 5000).outcome
        = .error breakerOpenError ∧
      breakerOpenError.message = "Payment Service temporarily unavailable" ∧
      ((CircuitBreaker.mk 3 60000 10000 3 (some 1000) .OPEN).call 5000
        (fun w : Unit => ((.ok 7 : Except JsError Nat), w)) () 5000).world = () ∧
      ((CircuitBreaker.mk 3 60000 10000 3 (some 1000) .OPEN).call 5000
        (counting (fun w : Unit => ((.ok 7 : Except JsError Nat), w))) ((), 0) 5000).world.2 = 0 ∧
      ((CircuitBreaker.mk 3 60000 10000 3 (some 1000) .OPEN).call 5000
        (fun w : Unit => ((.ok 7 : Except JsError Nat), w)) () 5000).breaker
        = CircuitBreaker.mk 3 60000 10000 3 (some 1000) .OPEN :=
  C2_open_fast_fails (CircuitBreaker.mk 3 60000 10000 3 (some 1000) .OPEN) 5000 5000
    (fun w : Unit => ((.ok 7 : Except JsError Nat), w)) () rfl (by decide)

/-- C3: in every state reached from a fresh breaker (threshold `N ≥ 1`) by sequential calls, if
the breaker is `OPEN` and the reset timeout has expired, the next call runs the operation; if the
operation succeeds the breaker ends `CLOSED` with `failureCount = 0`, if it fails the breaker ends
`OPEN` with `lastFailureTime` equal to the time of that failure; in either case the breaker is not
`HALF_OPEN` when the call reports its outcome. -/
theorem C3_trial_call_closes_or_reopens {σ α : Type} (N timeout : Nat) (resetTimeout : Int)
    (hN : 1 ≤ N) (evs : List CallEvent) (now failTime : Int)
    (op : σ → Except JsError α × σ) (w : σ)
    (hopen : ((CircuitBreaker.new N timeout resetTimeout).run evs).state = .OPEN)
    (hexp : now - ((CircuitBreaker.new N timeout resetTimeout).run evs).lastFailureTime.getD 0
      > ((CircuitBreaker.new N timeout resetTimeout).run evs).resetTimeout) :
    (((CircuitBreaker.new N timeout resetTimeout).run evs).call now op w failTime).outcome
        = (op w).1 ∧
      (((CircuitBreaker.new N timeout resetTimeout).run evs).call now op w failTime).world
        = (op w).2 ∧
      (match (op w).1 with
        | .ok _ =>
          (((CircuitBreaker.new N timeout resetTimeout).run evs).call
              now op w failTime).breaker.state = .CLOSED ∧
            (((CircuitBreaker.new N timeout resetTimeout).run evs).call
              now op w failTime).breaker.failureCount = 0
        | .error _ =>
          (((CircuitBreaker.new N timeout resetTimeout).run evs).call
              now op w failTime).breaker.state = .OPEN ∧
            (((CircuitBreaker.new N timeout resetTimeout).run evs).call
              now op w failTime).breaker.lastFailureTime = some failTime) ∧
      (((CircuitBreaker.new N timeout resetTimeout).run evs).call
        now op w failTime).breaker.state ≠ .HALF_OPEN := by
  obtain ⟨hth, _, hop, _⟩ := CircuitBreaker.inv_run N timeout resetTimeout hN evs
  generalize (CircuitBreaker.new N timeout resetTimeout).run evs = cb at *
  have hge : cb.threshold ≤ cb.failureCount + 1 := by have := hop hopen; omega
  rcases hres : op w with ⟨r, w1⟩
  cases r <;>
    simp [CircuitBreaker.call, CircuitBreaker.enter, hopen, hexp, hres,
      CircuitBreaker.onFailure, CircuitBreaker.onSuccess, hge]

/-- Witness of C3: the payment breaker after three failures at times 10, 20, 30, called at time
20000 with an operation that fails. -/
theorem C3_trial_call_closes_or_reopens_witness :
    (((CircuitBreaker.new 3 60000 10000).run
        [failingEvent 10, failingEvent 20, failingEvent 30]).call 20000
        (fun w : Unit => ((.error breakerOpenError : Except JsError Nat), w)) () 20001).breaker.state
        = .OPEN ∧
      (((CircuitBreaker.new 3 60000 10000).run
        [failingEvent 10, failingEvent 20, failingEvent 30]).call 20000
        (fun w : Unit => ((.error breakerOpenError : Except JsError Nat), w)) ()
          20001).breaker.lastFailureTime = some 20001 :=
  (C3_trial_call_closes_or_reopens 3 60000 10000 (by decide)
    [failingEvent 10, failingEvent 20, failingEvent 30] 20000 20001
    (fun w : Unit => ((.error breakerOpenError : Except JsError Nat), w)) ()
    (by decide) (by decide)).2.2.1

/-- C4, at the boundary: the payment breaker opened by three failures at time 0 and called at
time 10000, so that `now - lastFailureTime = resetTimeout`, throws the breaker-open error, stays
`OPEN` and does not run the operation. -/
theorem C4_boundary_call_is_refused :
    ((CircuitBreaker.new 3 60000 10000).run
        [failingEvent 0, failingEvent 0, failingEvent 0]).state = .OPEN ∧
      (10000 : Int) - ((CircuitBreaker.new 3 60000 10000).run
        [failingEvent 0, failingEvent 0, failingEvent 0]).lastFailureTime.getD 0
        ≥ ((CircuitBreaker.new 3 60000 10000).run
          [failingEvent 0, failingEvent 0, failingEvent 0]).resetTimeout ∧
      ((CircuitBreaker.new 3 60000 10000).run
        [failingEvent 0, failingEvent 0, failingEvent 0]).enter 10000
        = .error breakerOpenError ∧
      (((CircuitBreaker.new 3 60000 10000).run
        [failingEvent 0, failingEvent 0, failingEvent 0]).call 10000
        (counting (fun w : Unit => ((.ok 7 : Except JsError Nat), w))) ((), 0) 10000).world.2
        = 0 ∧
      (((CircuitBreaker.new 3 60000 10000).run
        [failingEvent 0, failingEvent 0, failingEvent 0]).call 10000
        (counting (fun w : Unit => ((.ok 7 : Except JsError Nat), w))) ((), 0)
          10000).breaker.state = .OPEN :=
  ⟨by decide, by decide, rfl, by decide, by decide⟩

/-- C4, amended: on an `OPEN` breaker, a call at a clock reading `now` with
`now - lastFailureTime > resetTimeout` puts the breaker in `HALF_OPEN` and runs the wrapped
operation exactly once; at every other reading, the boundary
`now - lastFailureTime = resetTimeout` included, the call is refused with the breaker-open error
and the operation does not run. -/
theorem C4_open_admits_strictly_after_timeout {σ α : Type} (cb : CircuitBreaker)
    (now failTime : Int) (op : σ → Except JsError α × σ) (w : σ)
    (hopen : cb.state = .OPEN) :
    if now - cb.lastFailureTime.getD 0 > cb.resetTimeout then
      cb.enter now = .ok { cb with state := .HALF_OPEN } ∧
        (cb.call now op w failTime).outcome = (op w).1 ∧
        (cb.call now op w failTime).world = (op w).2 ∧
        (cb.call now (counting op) (w, 0) failTime).world.2 = 1
    else
      cb.enter now = .error breakerOpenError ∧
        (cb.call now op w failTime).outcome = .error breakerOpenError ∧
        (cb.call now op w failTime).world = w ∧
        (cb.call now (counting op) (w, 0) failTime).world.2 = 0 := by
  split_ifs with h
  · have hc : ∀ {τ : Type} (f : τ → Except JsError α × τ) (x : τ),
        (cb.call now f x failTime).outcome = (f x).1 ∧
          (cb.call now f x failTime).world = (f x).2 := by
      intro τ f x
      rcases hres : f x with ⟨r, x1⟩
      cases r <;> simp [CircuitBreaker.call, CircuitBreaker.enter, hopen, h, hres]
    refine ⟨by simp [CircuitBreaker.enter, hopen, h], (hc op w).1, (hc op w).2, ?_⟩
    rw [(hc (counting op) (w, 0)).2]
    simp [counting]
  · simp [CircuitBreaker.call, CircuitBreaker.enter, hopen, h]

/-- Witness of C4 (amended): the payment breaker opened at time 1000 and called at 11001. -/
theorem C4_open_admits_strictly_after_timeout_witness :
    (CircuitBreaker.mk 3 60000 10000 3 (some 1000) .OPEN).enter 11001
        = .ok (CircuitBreaker.mk 3 60000 10000 3 (some 1000) .HALF_OPEN) ∧
      ((CircuitBreaker.mk 3 60000 10000 3 (some 1000) .OPEN).call 11001
        (counting (fun w : Unit => ((.ok 7 : Except JsError Nat), w))) ((), 0) 11001).world.2
        = 1 := by
  have h := C4_open_admits_strictly_after_timeout
    (CircuitBreaker.mk 3 60000 10000 3 (some 1000) .OPEN) 11001 11001
    (fun w : Unit => ((.ok 7 : Except JsError Nat), w)) () rfl
  rw [if_pos (by decide)] at h
  exact ⟨h.1, h.2.2.2⟩

/-- C5: for every threshold `N ≥ 1` and every state reached from a fresh breaker by sequential
calls (succeeding, failing or refused, at any clock readings), a `CLOSED` breaker has
`0 ≤ failureCount ≤ N` and indeed `failureCount < N`: it is never left `CLOSED` with the count at
the threshold. -/
theorem C5_closed_count_below_threshold (N timeout : Nat) (resetTimeout : Int) (hN : 1 ≤ N)
    (evs : List CallEvent)
    (hclosed : ((CircuitBreaker.new N timeout resetTimeout).run evs).state = .CLOSED) :
    ((CircuitBreaker.new N timeout resetTimeout).run evs).threshold = N ∧
      0 ≤ ((CircuitBreaker.new N timeout resetTimeout).run evs).failureCount ∧
      ((CircuitBreaker.new N timeout resetTimeout).run evs).failureCount ≤ N ∧
      ((CircuitBreaker.new N timeout resetTimeout).run evs).failureCount < N := by
  obtain ⟨hth, hcl, _, _⟩ := CircuitBreaker.inv_run N timeout resetTimeout hN evs
  have := hcl hclosed
  exact ⟨hth, Nat.zero_le _, by omega, this⟩

/-- Witness of C5: two failures, a success and another failure on the payment breaker. -/
theorem C5_closed_count_below_threshold_witness :
    ((CircuitBreaker.new 3 60000 10000).run
      [failingEvent 10, failingEvent 20, succeedingEvent 30, failingEvent 40]).failureCount < 3 :=
  (C5_closed_count_below_threshold 3 60000 10000 (by decide)
    [failingEvent 10, failingEvent 20, succeedingEvent 30, failingEvent 40] (by decide)).2.2.2

end Breaker

/-! ## Properties of binary64 rounding and of `totalCost` -/

section Rounding

set_option exponentiation.threshold 1100

/-- `2 ^ k` as a quotient of two powers of two with natural exponents. -/
theorem two_zpow_eq (k : ℤ) :
    (2 : ℚ) ^ k = ((2 ^ k.toNat : ℕ) : ℚ) / ((2 ^ (-k).toNat : ℕ) : ℚ) := by
  rcases le_total 0 k with h | h
  · have h1 : (-k).toNat = 0 := Int.toNat_eq_zero.2 (by omega)
    have h2 : ((k.toNat : ℤ)) = k := Int.toNat_of_nonneg h
    rw [h1]
    simp only [pow_zero, Nat.cast_one, div_one, Nat.cast_pow, Nat.cast_ofNat]
    rw [← zpow_natCast, h2]
  · have h1 : k.toNat = 0 := Int.toNat_eq_zero.2 h
    have h2 : (((-k).toNat : ℤ)) = -k := Int.toNat_of_nonneg (by omega)
    rw [h1]
    simp only [pow_zero, Nat.cast_one, one_div, Nat.cast_pow, Nat.cast_ofNat]
    rw [← zpow_natCast, h2, zpow_neg, inv_inv]

/-- The fuelled logarithm brackets its argument between two consecutive powers of two. -/
theorem log2Aux_spec : ∀ (fuel n : ℕ), 0 < n → n ≤ fuel →
    2 ^ log2Aux fuel n ≤ n ∧ n < 2 ^ (log2Aux fuel n + 1) := by
  intro fuel
  induction fuel with
  | zero => intro n h1 h2; omega
  | succ f ih =>
    intro n hn hf
    unfold log2Aux
    by_cases h : n < 2
    · rw [if_pos h]
      constructor
      · simpa using hn
      · simpa using h
    · rw [if_neg h]
      have hpos : 0 < n / 2 := Nat.div_pos (by omega) (by decide)
      have hle : n / 2 ≤ f := by omega
      obtain ⟨a, b⟩ := ih (n / 2) hpos hle
      constructor
      · rw [pow_succ]; omega
      · rw [pow_succ]; omega


/-- The exponent computed by `floorLog2` brackets the quotient between two consecutive powers of
two. -/
theorem floorLog2_spec (n d : ℕ) (hn : 0 < n) (hd : 0 < d) :
    (2 : ℚ) ^ floorLog2 n d ≤ (n : ℚ) / d ∧ (n : ℚ) / d < (2 : ℚ) ^ (floorLog2 n d + 1) := by
  obtain ⟨a1, a2⟩ := log2Aux_spec n n hn le_rfl
  obtain ⟨b1, b2⟩ := log2Aux_spec d d hd le_rfl
  have hnq : (0 : ℚ) < n := by exact_mod_cast hn
  have hdq : (0 : ℚ) < d := by exact_mod_cast hd
  have a1q : (2 : ℚ) ^ (log2Aux n n : ℤ) ≤ n := by
    rw [zpow_natCast]; exact_mod_cast a1
  have a2q : (n : ℚ) < (2 : ℚ) ^ ((log2Aux n n : ℤ) + 1) := by
    have : (n : ℚ) < (2 : ℚ) ^ (log2Aux n n + 1) := by exact_mod_cast a2
    rw [← zpow_natCast] at this
    simpa using this
  have b1q : (2 : ℚ) ^ (log2Aux d d : ℤ) ≤ d := by
    rw [zpow_natCast]; exact_mod_cast b1
  have b2q : (d : ℚ) < (2 : ℚ) ^ ((log2Aux d d : ℤ) + 1) := by
    have : (d : ℚ) < (2 : ℚ) ^ (log2Aux d d + 1) := by exact_mod_cast b2
    rw [← zpow_natCast] at this
    simpa using this
  have h2 : (0 : ℚ) < 2 := by norm_num
  have h2ne : (2 : ℚ) ≠ 0 := by norm_num
  -- upper and lower bounds around `e0 = a - b`
  have hup : (n : ℚ) / d < (2 : ℚ) ^ ((log2Aux n n : ℤ) - (log2Aux d d : ℤ) + 1) := by
    have e : (2 : ℚ) ^ ((log2Aux n n : ℤ) - (log2Aux d d : ℤ) + 1)
        = (2 : ℚ) ^ ((log2Aux n n : ℤ) + 1) / (2 : ℚ) ^ (log2Aux d d : ℤ) := by
      rw [← zpow_sub₀ h2ne]; congr 1; ring
    rw [e, div_lt_div_iff₀ hdq (zpow_pos h2 _)]
    calc (n : ℚ) * (2 : ℚ) ^ (log2Aux d d : ℤ)
        ≤ (n : ℚ) * d := by exact mul_le_mul_of_nonneg_left b1q hnq.le
      _ < (2 : ℚ) ^ ((log2Aux n n : ℤ) + 1) * d := by
          exact mul_lt_mul_of_pos_right a2q hdq
  have hlo : (2 : ℚ) ^ ((log2Aux n n : ℤ) - (log2Aux d d : ℤ) - 1) ≤ (n : ℚ) / d := by
    have e : (2 : ℚ) ^ ((log2Aux n n : ℤ) - (log2Aux d d : ℤ) - 1)
        = (2 : ℚ) ^ (log2Aux n n : ℤ) / (2 : ℚ) ^ ((log2Aux d d : ℤ) + 1) := by
      rw [← zpow_sub₀ h2ne]; congr 1; ring
    rw [e, div_le_div_iff₀ (zpow_pos h2 _) hdq]
    calc (2 : ℚ) ^ (log2Aux n n : ℤ) * d
        ≤ (n : ℚ) * d := by exact mul_le_mul_of_nonneg_right a1q hdq.le
      _ ≤ (n : ℚ) * (2 : ℚ) ^ ((log2Aux d d : ℤ) + 1) := by
          exact mul_le_mul_of_nonneg_left b2q.le hnq.le
  -- the test of the definition compares `2 ^ e0` with `n / d`
  have htest : (d * 2 ^ ((log2Aux n n : ℤ) - (log2Aux d d : ℤ)).toNat
      ≤ n * 2 ^ ((log2Aux d d : ℤ) - (log2Aux n n : ℤ)).toNat)
      ↔ (2 : ℚ) ^ ((log2Aux n n : ℤ) - (log2Aux d d : ℤ)) ≤ (n : ℚ) / d := by
    have hneg : (log2Aux d d : ℤ) - (log2Aux n n : ℤ)
        = -((log2Aux n n : ℤ) - (log2Aux d d : ℤ)) := by ring
    rw [hneg, two_zpow_eq, div_le_div_iff₀ (by positivity) hdq]
    constructor
    · intro h
      have : ((d * 2 ^ ((log2Aux n n : ℤ) - (log2Aux d d : ℤ)).toNat : ℕ) : ℚ)
          ≤ ((n * 2 ^ (-((log2Aux n n : ℤ) - (log2Aux d d : ℤ))).toNat : ℕ) : ℚ) := by
        exact_mod_cast h
      push_cast at this ⊢
      linarith
    · intro h
      have : ((d * 2 ^ ((log2Aux n n : ℤ) - (log2Aux d d : ℤ)).toNat : ℕ) : ℚ)
          ≤ ((n * 2 ^ (-((log2Aux n n : ℤ) - (log2Aux d d : ℤ))).toNat : ℕ) : ℚ) := by
        push_cast at h ⊢
        linarith
      exact_mod_cast this
  unfold floorLog2
  by_cases hc : d * 2 ^ ((log2Aux n n : ℤ) - (log2Aux d d : ℤ)).toNat
      ≤ n * 2 ^ ((log2Aux d d : ℤ) - (log2Aux n n : ℤ)).toNat
  · rw [if_pos hc]
    exact ⟨htest.1 hc, hup⟩
  · rw [if_neg hc]
    refine ⟨hlo, ?_⟩
    have := lt_of_not_le (fun h => hc (htest.2 h))
    simpa using this


/-- The integer computed by `roundHalfEven` is within one half of the quotient. -/
theorem roundHalfEven_spec (N D : ℕ) (hD : 0 < D) :
    |(roundHalfEven N D : ℚ) - (N : ℚ) / D| ≤ 1 / 2 := by
  have hDq : (0 : ℚ) < D := by exact_mod_cast hD
  have hsplit : (N : ℚ) / D = ((N / D : ℕ) : ℚ) + ((N % D : ℕ) : ℚ) / D := by
    have h := Nat.div_add_mod N D
    have hq : (N : ℚ) = (D : ℚ) * ((N / D : ℕ) : ℚ) + ((N % D : ℕ) : ℚ) := by
      exact_mod_cast h.symm
    field_simp
    linarith
  have hr0 : (0 : ℚ) ≤ ((N % D : ℕ) : ℚ) / D := by positivity
  have hr1 : ((N % D : ℕ) : ℚ) / D < 1 := by
    rw [div_lt_one hDq]
    exact_mod_cast Nat.mod_lt N hD
  have hhalf : ∀ a b : ℕ, 2 * a ≤ b → 0 < b → ((a : ℚ)) / b ≤ 1 / 2 := by
    intro a b hab hb
    have hb' : (0 : ℚ) < b := by exact_mod_cast hb
    rw [div_le_div_iff₀ hb' (by norm_num)]
    have : ((2 * a : ℕ) : ℚ) ≤ b := by exact_mod_cast hab
    push_cast at this
    linarith
  have hhalf' : ∀ a b : ℕ, b ≤ 2 * a → 0 < b → (1 : ℚ) / 2 ≤ ((a : ℚ)) / b := by
    intro a b hab hb
    have hb' : (0 : ℚ) < b := by exact_mod_cast hb
    rw [div_le_div_iff₀ (by norm_num) hb']
    have : ((b : ℕ) : ℚ) ≤ ((2 * a : ℕ) : ℚ) := by exact_mod_cast hab
    push_cast at this
    linarith
  unfold roundHalfEven
  rw [hsplit, abs_le]
  split_ifs with h1 h2 h3
  · have := hhalf _ _ h1.le hD
    constructor <;> linarith
  · have := hhalf' _ _ h2.le hD
    push_cast
    constructor <;> linarith
  · have := hhalf (N % D) D (by omega) hD
    constructor <;> linarith
  · have := hhalf' (N % D) D (by omega) hD
    push_cast
    constructor <;> linarith


/-- In the range of the normal binary64 numbers, rounding succeeds and moves the quotient by at
most the fraction `2 ^ (-53)` of it. -/
theorem roundMagnitude_spec (n d : ℕ) (hn : 0 < n) (hd : 0 < d)
    (hlo : (2 : ℚ) ^ (-1022 : ℤ) ≤ (n : ℚ) / d) (hhi : (n : ℚ) / d < (2 : ℚ) ^ (1023 : ℤ)) :
    ∃ r : ℚ, roundMagnitude n d = some r ∧ |r - (n : ℚ) / d| ≤ (n : ℚ) / d / 2 ^ 53 := by
  obtain ⟨e1, e2⟩ := floorLog2_spec n d hn hd
  have h12 : (1 : ℚ) < 2 := by norm_num
  have h2 : (0 : ℚ) < 2 := by norm_num
  have h2ne : (2 : ℚ) ≠ 0 := by norm_num
  have hnq : (0 : ℚ) < n := by exact_mod_cast hn
  have hdq : (0 : ℚ) < d := by exact_mod_cast hd
  have he_lo : -1022 ≤ floorLog2 n d := by
    have := lt_of_le_of_lt hlo e2
    rw [zpow_lt_zpow_iff_right₀ h12] at this
    omega
  have he_hi : floorLog2 n d ≤ 1022 := by
    have := lt_of_le_of_lt e1 hhi
    rw [zpow_lt_zpow_iff_right₀ h12] at this
    omega
  have hk : ulpExponent n d = floorLog2 n d - 52 := by
    unfold ulpExponent
    rw [max_eq_left he_lo]
  -- the scaled quotient
  have hD : 0 < d * 2 ^ (ulpExponent n d).toNat := by positivity
  have hscaled : ((n * 2 ^ (-(ulpExponent n d)).toNat : ℕ) : ℚ)
      / ((d * 2 ^ (ulpExponent n d).toNat : ℕ) : ℚ)
      = (n : ℚ) / d / (2 : ℚ) ^ (ulpExponent n d) := by
    rw [two_zpow_eq (ulpExponent n d)]
    push_cast
    field_simp
  have hm := roundHalfEven_spec (n * 2 ^ (-(ulpExponent n d)).toNat)
    (d * 2 ^ (ulpExponent n d).toNat) hD
  rw [hscaled, abs_le] at hm
  generalize hmdef : roundHalfEven (n * 2 ^ (-(ulpExponent n d)).toNat)
    (d * 2 ^ (ulpExponent n d).toNat) = m at hm
  have hkpos : (0 : ℚ) < (2 : ℚ) ^ (ulpExponent n d) := zpow_pos h2 _
  -- bounds on the scaled quotient
  have hs_hi : (n : ℚ) / d / (2 : ℚ) ^ (ulpExponent n d) < 2 ^ 53 := by
    rw [div_lt_iff₀ hkpos]
    have : (2 : ℚ) ^ (53 : ℕ) * (2 : ℚ) ^ (ulpExponent n d) = (2 : ℚ) ^ (floorLog2 n d + 1) := by
      rw [← zpow_natCast, ← zpow_add₀ h2ne, hk]; congr 1; push_cast; ring
    rw [this]; exact e2
  have hs_lo : (2 : ℚ) ^ 52 ≤ (n : ℚ) / d / (2 : ℚ) ^ (ulpExponent n d) := by
    rw [le_div_iff₀ hkpos]
    have : (2 : ℚ) ^ (52 : ℕ) * (2 : ℚ) ^ (ulpExponent n d) = (2 : ℚ) ^ (floorLog2 n d) := by
      rw [← zpow_natCast, ← zpow_add₀ h2ne, hk]; congr 1; push_cast; ring
    rw [this]; exact e1
  have hm_le : m ≤ 2 ^ 53 := by
    have h : (m : ℚ) < ((2 ^ 53 + 1 : ℕ) : ℚ) := by
      push_cast
      linarith [hm.2]
    have := Nat.cast_lt.1 h
    omega
  -- the value of the result
  have hval : (mkRat ((m * 2 ^ (ulpExponent n d).toNat : ℕ) : ℤ)
      (2 ^ (-(ulpExponent n d)).toNat) : ℚ) = (m : ℚ) * (2 : ℚ) ^ (ulpExponent n d) := by
    rw [Rat.mkRat_eq_div, two_zpow_eq (ulpExponent n d)]
    push_cast
    ring
  -- no overflow
  have hno : ¬ (2 ^ 1024 * 2 ^ (-(ulpExponent n d)).toNat ≤ m * 2 ^ (ulpExponent n d).toNat) := by
    intro hov
    have hq : ((2 ^ 1024 * 2 ^ (-(ulpExponent n d)).toNat : ℕ) : ℚ)
        ≤ ((m * 2 ^ (ulpExponent n d).toNat : ℕ) : ℚ) := Nat.cast_le.2 hov
    have hden : (0 : ℚ) < ((2 ^ (-(ulpExponent n d)).toNat : ℕ) : ℚ) := by positivity
    have hq2 : (2 : ℚ) ^ 1024 ≤ (m : ℚ) * (2 : ℚ) ^ (ulpExponent n d) := by
      rw [two_zpow_eq (ulpExponent n d), ← mul_div_assoc, le_div_iff₀ hden]
      simp only [Nat.cast_mul, Nat.cast_pow, Nat.cast_ofNat] at hq ⊢
      exact hq
    have hle : (m : ℚ) * (2 : ℚ) ^ (ulpExponent n d) ≤ (2 : ℚ) ^ (1023 : ℤ) := by
      calc (m : ℚ) * (2 : ℚ) ^ (ulpExponent n d)
          ≤ (2 : ℚ) ^ (53 : ℕ) * (2 : ℚ) ^ (ulpExponent n d) := by
            apply mul_le_mul_of_nonneg_right _ hkpos.le
            exact_mod_cast hm_le
        _ = (2 : ℚ) ^ (floorLog2 n d + 1) := by
            rw [← zpow_natCast, ← zpow_add₀ h2ne, hk]; congr 1; push_cast; ring
        _ ≤ (2 : ℚ) ^ (1023 : ℤ) := zpow_le_zpow_right₀ h12.le (by omega)
    have hlt : (2 : ℚ) ^ (1023 : ℤ) < (2 : ℚ) ^ 1024 := by
      rw [← zpow_natCast]
      exact zpow_lt_zpow_right₀ h12 (by norm_num)
    linarith
  refine ⟨(m : ℚ) * (2 : ℚ) ^ (ulpExponent n d), ?_, ?_⟩
  · unfold roundMagnitude
    simp only [hmdef, if_neg hno, hval]
  · have hx : (n : ℚ) / d
        = ((n : ℚ) / d / (2 : ℚ) ^ (ulpExponent n d)) * (2 : ℚ) ^ (ulpExponent n d) := by
      field_simp
      ring
    have hhalf : (2 : ℚ) ^ (ulpExponent n d) / 2 ≤ (n : ℚ) / d / 2 ^ 53 := by
      rw [div_le_div_iff₀ h2 (by positivity)]
      have : (2 : ℚ) ^ (ulpExponent n d) * (2 : ℚ) ^ (53 : ℕ) = (2 : ℚ) ^ (floorLog2 n d) * 2 := by
        rw [← zpow_natCast, ← zpow_add₀ h2ne, hk]
        have : floorLog2 n d - 52 + ((53 : ℕ) : ℤ) = floorLog2 n d + 1 := by push_cast; ring
        rw [this, zpow_add_one₀ h2ne]
      rw [this]
      exact mul_le_mul_of_nonneg_right e1 h2.le
    rw [abs_le]
    constructor
    · nlinarith [hm.1, hm.2, hkpos]
    · nlinarith [hm.1, hm.2, hkpos]


/-- Rounding a positive rational in the normal range gives a finite number, with relative error
at most `2 ^ (-53)`. -/
theorem roundBinary64_of_normal (x : ℚ) (hlo : (2 : ℚ) ^ (-1022 : ℤ) ≤ x)
    (hhi : x < (2 : ℚ) ^ (1023 : ℤ)) :
    ∃ r : ℚ, roundBinary64 x = .fin r ∧ |r - x| ≤ x / 2 ^ 53 := by
  have hx : 0 < x := lt_of_lt_of_le (zpow_pos (by norm_num) _) hlo
  have hnum : 0 < x.num := Rat.num_pos.2 hx
  have hn : 0 < x.num.natAbs := Int.natAbs_pos.2 hnum.ne'
  have hcast : ((x.num.natAbs : ℕ) : ℚ) / (x.den : ℚ) = x := by
    rw [Nat.cast_natAbs, abs_of_pos hnum]
    exact Rat.num_div_den x
  obtain ⟨r, hr, hb⟩ := roundMagnitude_spec x.num.natAbs x.den hn x.den_pos
    (by rw [hcast]; exact hlo) (by rw [hcast]; exact hhi)
  rw [hcast] at hb
  refine ⟨r, ?_, hb⟩
  unfold roundBinary64
  rw [if_neg hx.ne', hr]
  simp [not_lt.2 hx.le]

/-- Rounding a moderate positive number to binary64 moves it by a factor within
`1 ± 2 ^ (-53)`. -/
theorem roundBinary64_of_moderate (x : ℚ) (hlo : 1 / 256 ≤ x) (hhi : x ≤ 2 ^ 60) :
    ∃ r : ℚ, roundBinary64 x = .fin r ∧ x * (1 - 1 / 2 ^ 53) ≤ r ∧ r ≤ x * (1 + 1 / 2 ^ 53) := by
  have h12 : (1 : ℚ) ≤ 2 := by norm_num
  have h1 : (2 : ℚ) ^ (-1022 : ℤ) ≤ x := by
    have : (2 : ℚ) ^ (-1022 : ℤ) ≤ (2 : ℚ) ^ (-8 : ℤ) := zpow_le_zpow_right₀ h12 (by norm_num)
    have e : (2 : ℚ) ^ (-8 : ℤ) = 1 / 256 := by norm_num [zpow_neg]
    exact this.trans (e.le.trans hlo)
  have h2 : x < (2 : ℚ) ^ (1023 : ℤ) := by
    have : (2 : ℚ) ^ (61 : ℤ) ≤ (2 : ℚ) ^ (1023 : ℤ) := zpow_le_zpow_right₀ h12 (by norm_num)
    have e : (2 : ℚ) ^ 61 = (2 : ℚ) ^ (61 : ℤ) := by norm_cast
    have h3 : (2 : ℚ) ^ 60 < 2 ^ 61 := by norm_num
    exact lt_of_le_of_lt hhi (lt_of_lt_of_le h3 (e.le.trans this))
  obtain ⟨r, hr, hb⟩ := roundBinary64_of_normal x h1 h2
  rw [abs_le] at hb
  refine ⟨r, hr, ?_, ?_⟩
  · have : x * (1 - 1 / 2 ^ 53) = x - x / 2 ^ 53 := by ring
    linarith [hb.1]
  · have : x * (1 + 1 / 2 ^ 53) = x + x / 2 ^ 53 := by ring
    linarith [hb.2]


/-- A whole number of cents is its own rounding to two decimals. -/
theorem roundHalfUp2_cents (c q : ℕ) :
    roundHalfUp2 ((c : ℚ) / 100 * q) = ((c * q : ℕ) : ℚ) / 100 := by
  unfold roundHalfUp2
  have h : ⌊(c : ℚ) / 100 * q * 100 + 1 / 2⌋ = ((c * q : ℕ) : ℤ) := by
    rw [Int.floor_eq_iff]
    push_cast
    constructor <;> linarith
  rw [h]
  push_cast
  ring

/-- For a price of `c` cents and a quantity `q`, the product being at most `2 ^ 50` cents, the
three roundings of `price * quantity * 100` stay within one half of `c * q`, so that `Math.round`
recovers `c * q` exactly. -/
theorem totalCost_whole_cents (c q : ℕ) (hq : 0 < q) (hcq : c * q ≤ 2 ^ 50) :
    totalCost (roundBinary64 ((c : ℚ) / 100)) (.fin q)
      = roundBinary64 (roundHalfUp2 ((c : ℚ) / 100 * q)) := by
  rw [roundHalfUp2_cents]
  have hqq : (1 : ℚ) ≤ q := by exact_mod_cast hq
  have r0 : roundBinary64 0 = .fin 0 := by simp [roundBinary64]
  have h100 : (100 : ℚ) ≠ 0 := by norm_num
  rcases Nat.eq_zero_or_pos c with hc | hc
  · subst hc
    have hfl : ⌊(0 : ℚ) + 1 / 2⌋ = 0 := by
      rw [Int.floor_eq_iff]; norm_num
    simp only [Nat.cast_zero, zero_div, zero_mul, totalCost, r0, JsNum.mul, JsNum.round, hfl,
      JsNum.div, Int.cast_zero, if_neg h100]
  · have hc1 : (1 : ℚ) ≤ c := by exact_mod_cast hc
    have hq0 : (0 : ℚ) ≤ q := by linarith
    have hC : ((c : ℚ)) * q ≤ 2 ^ 50 := by exact_mod_cast hcq
    have hC1 : (1 : ℚ) ≤ c * q := by nlinarith
    have hc50 : (c : ℚ) ≤ 2 ^ 50 := by nlinarith
    -- the price
    obtain ⟨p, hp, hp1, hp2⟩ := roundBinary64_of_moderate ((c : ℚ) / 100)
      (by linarith) (by linarith)
    -- price times quantity
    have hx2lo : (c : ℚ) * q * ((1 - 1 / 2 ^ 53) / 100) ≤ p * q := by
      have := mul_le_mul_of_nonneg_right hp1 hq0
      linarith
    have hx2hi : p * q ≤ (c : ℚ) * q * ((1 + 1 / 2 ^ 53) / 100) := by
      have := mul_le_mul_of_nonneg_right hp2 hq0
      linarith
    obtain ⟨y1, hy1, hy1lo, hy1hi⟩ := roundBinary64_of_moderate (p * q)
      (by linarith) (by linarith)
    -- times 100
    obtain ⟨y2, hy2, hy2lo, hy2hi⟩ := roundBinary64_of_moderate (y1 * 100)
      (by linarith) (by linarith)
    have hfloor : ⌊y2 + 1 / 2⌋ = ((c * q : ℕ) : ℤ) := by
      rw [Int.floor_eq_iff]
      push_cast
      constructor
      · linarith
      · linarith
    simp only [totalCost, hp, JsNum.mul, hy1, hy2, JsNum.round, hfloor, JsNum.div, if_neg h100]
    push_cast
    rfl


/-- C7, as stated, fails. The unit price 1.005 with quantity 1 gives `totalCost = 1`, whereas
1.005 × 1 rounded half-up to two decimals is 1.01: the binary64 product `1.005 * 1 * 100` is
100.49999999999999, which `Math.round` takes down. Reading the unit price as the binary64 number
that the literal 12.555 denotes (a little below 12.555, so that the exact product rounds half-up
to 12.55) does not help: the code gives 12.56 for it. -/
theorem C7_price_1005_gives_1 :
    totalCost (roundBinary64 (1005 / 1000)) (.fin 1) = .fin 1 ∧
      roundHalfUp2 (1005 / 1000 * 1) = 101 / 100 ∧
      roundBinary64 (101 / 100) ≠ .fin 1 ∧
      roundBinary64 (12555 / 1000) = .fin (1766959166301143 / 140737488355328) ∧
      roundHalfUp2 (1766959166301143 / 140737488355328 * 1) = 1255 / 100 ∧
      totalCost (.fin (1766959166301143 / 140737488355328)) (.fin 1)
        = roundBinary64 (1256 / 100) ∧
      roundBinary64 (1256 / 100) ≠ roundBinary64 (1255 / 100) := by
  decide!

/-- C7, amended: for every catalog unit price that is a whole number `c` of cents and every
positive integer quantity `q`, with `c * q` at most `2 ^ 50` cents, the `totalCost` computed by
the order handler is the binary64 number nearest to `p × q` rounded half-up to two decimal places
(which is `p × q` itself); moreover the unit price 12.555 with quantity 1 gives 12.56 and the
unit price 15.99 with quantity 2 gives 31.98. -/
theorem C7_total_cost_of_whole_cent_prices (c q : ℕ) (hq : 0 < q) (hcq : c * q ≤ 2 ^ 50) :
    totalCost (roundBinary64 ((c : ℚ) / 100)) (.fin q)
        = roundBinary64 (roundHalfUp2 ((c : ℚ) / 100 * q)) ∧
      roundHalfUp2 ((c : ℚ) / 100 * q) = (c : ℚ) / 100 * q ∧
      totalCost (roundBinary64 (12555 / 1000)) (.fin 1) = roundBinary64 (1256 / 100) ∧
      totalCost (roundBinary64 (1599 / 100)) (.fin 2) = roundBinary64 (3198 / 100) := by
  refine ⟨totalCost_whole_cents c q hq hcq, ?_, by decide!, by decide!⟩
  rw [roundHalfUp2_cents]
  push_cast
  ring

/-- Witness of C7 (amended): the price 15.99 (1599 cents) and the quantity 2. -/
theorem C7_total_cost_of_whole_cent_prices_witness :
    totalCost (roundBinary64 (((1599 : ℕ) : ℚ) / 100)) (.fin ((2 : ℕ) : ℚ))
      = roundBinary64 (roundHalfUp2 (((1599 : ℕ) : ℚ) / 100 * ((2 : ℕ) : ℚ))) :=
  (C7_total_cost_of_whole_cent_prices 1599 2 (by decide) (by decide)).1

end Rounding

/-! ## Properties of the order handler -/

section Handler

variable {σ α : Type}

/-- A valid request whose catalog lookup succeeds and whose payment fails, handled on a breaker
that is not `OPEN`, records one failure on the breaker. -/
theorem handleEvent_of_payment_fails (rt : JsRuntime)
    (catalogGet : String → σ → Except JsError Book × σ)
    (paymentPost : String → PaymentRequest → σ → Except JsError α × σ)
    (cb : CircuitBreaker) (w : σ) (ev : OrderEvent)
    (hno : cb.state ≠ .OPEN) (hv : invalidOrder rt ev.body = false)
    (hp : paymentFails rt catalogGet paymentPost ev w = true) :
    (handleEvent rt catalogGet paymentPost cb w ev).breaker = cb.onFailure ev.failTime := by
  unfold paymentFails at hp
  unfold handleEvent postOrder
  rw [hv]
  rcases hcat : catalogGet ("http://catalog:5000/books/" ++ ev.body.bookID.toStr rt) w
    with ⟨rc, w1⟩
  rw [hcat] at hp
  cases rc with
  | error e => simp at hp
  | ok book =>
    simp only at hp
    rcases hpay : paymentPost "http://payment:5002/pay"
      { amount := totalCost book.price (ev.body.quantity.toNumber rt)
        orderId := "ORDER-" ++ toString ev.orderTime } w1 with ⟨rp, w2⟩
    rw [hpay] at hp
    cases rp with
    | ok v => simp at hp
    | error e =>
      simp [CircuitBreaker.call, CircuitBreaker.enter, hno, hpay]

/-- C6: on the payment breaker as constructed (threshold 3, reset timeout 10000 ms), starting
fresh, after three consecutive valid order requests whose catalog lookup succeeds and whose
payment call fails the breaker is `OPEN`; a fourth valid order request (its catalog lookup
succeeding) that reaches the breaker before the reset timeout has elapsed is answered with
status 503 and error 'Payment Service temporarily unavailable', carrying the current breaker
status `{state: OPEN, failureCount: 3, threshold: 3}`; the payment service is not called for it
(the world is left as the catalog lookup left it) and the breaker is unchanged. -/
theorem C6_fourth_order_gets_circuit_open (rt : JsRuntime)
    (catalogGet : String → σ → Except JsError Book × σ)
    (paymentPost : String → PaymentRequest → σ → Except JsError α × σ)
    (e1 e2 e3 e4 : OrderEvent) (w0 : σ)
    (hv1 : invalidOrder rt e1.body = false) (hv2 : invalidOrder rt e2.body = false)
    (hv3 : invalidOrder rt e3.body = false) (hv4 : invalidOrder rt e4.body = false)
    (hp1 : paymentFails rt catalogGet paymentPost e1 w0 = true)
    (hp2 : paymentFails rt catalogGet paymentPost e2
      (handleEvents rt catalogGet paymentPost paymentCircuitBreaker w0 [e1]).2 = true)
    (hp3 : paymentFails rt catalogGet paymentPost e3
      (handleEvents rt catalogGet paymentPost paymentCircuitBreaker w0 [e1, e2]).2 = true)
    (hc4 : catalogSucceeds rt catalogGet e4
      (handleEvents rt catalogGet paymentPost paymentCircuitBreaker w0 [e1, e2, e3]).2 = true)
    (ht : e4.now - e3.failTime < 10000) :
    (handleEvents rt catalogGet paymentPost paymentCircuitBreaker w0 [e1, e2, e3]).1.state
        = .OPEN ∧
      (handleEvent rt catalogGet paymentPost
        (handleEvents rt catalogGet paymentPost paymentCircuitBreaker w0 [e1, e2, e3]).1
        (handleEvents rt catalogGet paymentPost paymentCircuitBreaker w0 [e1, e2, e3]).2
        e4).response
        = { status := 503, success := some false
            error := some "Payment Service temporarily unavailable"
            circuitBreakerState := some { state := .OPEN, failureCount := 3, threshold := 3 }
            details := none, errorCode := none, stack := none, orderDetails := none
            payment := none } ∧
      (handleEvent rt catalogGet paymentPost
        (handleEvents rt catalogGet paymentPost paymentCircuitBreaker w0 [e1, e2, e3]).1
        (handleEvents rt catalogGet paymentPost paymentCircuitBreaker w0 [e1, e2, e3]).2
        e4).world
        = (catalogGet ("http://catalog:5000/books/" ++ e4.body.bookID.toStr rt)
            (handleEvents rt catalogGet paymentPost paymentCircuitBreaker w0 [e1, e2, e3]).2).2 ∧
      (handleEvent rt catalogGet paymentPost
        (handleEvents rt catalogGet paymentPost paymentCircuitBreaker w0 [e1, e2, e3]).1
        (handleEvents rt catalogGet paymentPost paymentCircuitBreaker w0 [e1, e2, e3]).2
        e4).breaker
        = (handleEvents rt catalogGet paymentPost paymentCircuitBreaker w0 [e1, e2, e3]).1 ∧
      (handleEvents rt catalogGet paymentPost paymentCircuitBreaker w0 [e1, e2, e3]).1.getState
        = { state := .OPEN, failureCount := 3, threshold := 3 } := by
  have b1 := handleEvent_of_payment_fails rt catalogGet paymentPost paymentCircuitBreaker w0 e1
    (by decide) hv1 hp1
  have s1 : handleEvents rt catalogGet paymentPost paymentCircuitBreaker w0 [e1]
      = (paymentCircuitBreaker.onFailure e1.failTime,
          (handleEvent rt catalogGet paymentPost paymentCircuitBreaker w0 e1).world) := by
    simp only [handleEvents, b1]
  rw [s1] at hp2
  have b2 := handleEvent_of_payment_fails rt catalogGet paymentPost
    (paymentCircuitBreaker.onFailure e1.failTime) _ e2
    (by simp [CircuitBreaker.onFailure, paymentCircuitBreaker, CircuitBreaker.new]) hv2 hp2
  have s2 : handleEvents rt catalogGet paymentPost paymentCircuitBreaker w0 [e1, e2]
      = ((paymentCircuitBreaker.onFailure e1.failTime).onFailure e2.failTime,
          (handleEvent rt catalogGet paymentPost (paymentCircuitBreaker.onFailure e1.failTime)
            (handleEvent rt catalogGet paymentPost paymentCircuitBreaker w0 e1).world
            e2).world) := by
    simp only [handleEvents, b1, b2]
  rw [s2] at hp3
  have b3 := handleEvent_of_payment_fails rt catalogGet paymentPost
    ((paymentCircuitBreaker.onFailure e1.failTime).onFailure e2.failTime) _ e3
    (by simp [CircuitBreaker.onFailure, paymentCircuitBreaker, CircuitBreaker.new]) hv3 hp3
  have s3 : (handleEvents rt catalogGet paymentPost paymentCircuitBreaker w0 [e1, e2, e3]).1
      = { threshold := 3, timeout := 60000, resetTimeout := 10000, failureCount := 3
          lastFailureTime := some e3.failTime, state := .OPEN } := by
    simp only [handleEvents, b1, b2, b3]
    simp [CircuitBreaker.onFailure, paymentCircuitBreaker, CircuitBreaker.new]
  generalize (handleEvents rt catalogGet paymentPost paymentCircuitBreaker w0 [e1, e2, e3]).2
    = w3 at hc4 ⊢
  rw [s3]
  unfold catalogSucceeds at hc4
  have hnot : ¬ (10000 < e4.now - e3.failTime) := by omega
  refine ⟨rfl, ?_, ?_, ?_, rfl⟩ <;>
  · unfold handleEvent postOrder
    rw [hv4]
    rcases hcat : catalogGet ("http://catalog:5000/books/" ++ e4.body.bookID.toStr rt) w3
      with ⟨rc, w4⟩
    rw [hcat] at hc4
    cases rc with
    | error e => simp at hc4
    | ok book =>
      simp [CircuitBreaker.call, CircuitBreaker.enter, hnot, handleError, breakerOpenError,
        breakerOpenMessage, CircuitBreaker.getState]

/-- Witness of C6: three orders of two copies of book 1 against a payment service that answers
500, at times 100, 200 and 300, then a fourth order at time 5000. -/
theorem C6_fourth_order_gets_circuit_open_witness :
    (handleEvents plainRuntime catalogViaAxios paymentRejecting paymentCircuitBreaker noTraffic
        [orderAt 1 2 100, orderAt 1 2 200, orderAt 1 2 300]).1.state = .OPEN ∧
      (handleEvent plainRuntime catalogViaAxios paymentRejecting
        (handleEvents plainRuntime catalogViaAxios paymentRejecting paymentCircuitBreaker
          noTraffic [orderAt 1 2 100, orderAt 1 2 200, orderAt 1 2 300]).1
        (handleEvents plainRuntime catalogViaAxios paymentRejecting paymentCircuitBreaker
          noTraffic [orderAt 1 2 100, orderAt 1 2 200, orderAt 1 2 300]).2
        (orderAt 1 2 5000)).response
        = { status := 503, success := some false
            error := some "Payment Service temporarily unavailable"
            circuitBreakerState := some { state := .OPEN, failureCount := 3, threshold := 3 }
            details := none, errorCode := none, stack := none, orderDetails := none
            payment := none } :=
  have h := C6_fourth_order_gets_circuit_open plainRuntime catalogViaAxios paymentRejecting
    (orderAt 1 2 100) (orderAt 1 2 200) (orderAt 1 2 300) (orderAt 1 2 5000) noTraffic
    (by decide!) (by decide!) (by decide!) (by decide!) (by decide!) (by decide!) (by decide!)
    (by decide!) (by decide)
  ⟨h.1, h.2.1⟩

/-- The guard of line 76 holds exactly for the requests described by `Falsy` and
`NonPositive`. -/
theorem invalidOrder_iff (rt : JsRuntime) (body : OrderBody) :
    invalidOrder rt body = true ↔
      (body.bookID.Falsy ∨ body.quantity.Falsy ∨ body.quantity.NonPositive rt) := by
  have hfalsy : ∀ v : JsVal, v.truthy = false ↔ v.Falsy := by
    intro v
    cases v with
    | undefined => simp [JsVal.truthy, JsVal.Falsy]
    | null => simp [JsVal.truthy, JsVal.Falsy]
    | bool b => simp [JsVal.truthy, JsVal.Falsy]
    | num n =>
      cases n with
      | nan => simp [JsVal.truthy, JsVal.Falsy, JsNum.truthy]
      | inf s => simp [JsVal.truthy, JsVal.Falsy, JsNum.truthy]
      | fin q => simp [JsVal.truthy, JsVal.Falsy, JsNum.truthy]
    | str t => simp [JsVal.truthy, JsVal.Falsy]
  have hle : ∀ v : JsVal, v.truthy = true →
      ((v.toNumber rt).leZero = true ↔ v.NonPositive rt) := by
    intro v hv
    cases v with
    | undefined => simp [JsVal.truthy] at hv
    | null => simp [JsVal.truthy] at hv
    | bool b =>
      simp only [JsVal.truthy] at hv
      subst hv
      simp [JsVal.toNumber, JsNum.leZero, JsVal.NonPositive]
    | num n =>
      cases n with
      | nan => simp [JsVal.truthy, JsNum.truthy] at hv
      | inf s => cases s <;> simp [JsVal.toNumber, JsNum.leZero, JsVal.NonPositive]
      | fin q =>
        have hq : q ≠ 0 := by simpa [JsVal.truthy, JsNum.truthy] using hv
        simp only [JsVal.toNumber, JsNum.leZero, JsVal.NonPositive, decide_eq_true_eq]
        constructor
        · intro h
          exact Or.inl ⟨q, lt_of_le_of_ne h hq, rfl⟩
        · rintro (⟨r, hr, he⟩ | he | ⟨t, _, he, _⟩)
          · cases he; exact le_of_lt hr
          · cases he
          · cases he
    | str t =>
      have ht : t ≠ "" := by simpa [JsVal.truthy] using hv
      simp only [JsVal.toNumber, JsVal.NonPositive]
      constructor
      · intro h
        exact Or.inr (Or.inr ⟨t, ht, rfl, h⟩)
      · rintro (⟨r, _, he⟩ | he | ⟨u, _, he, hu⟩)
        · cases he
        · cases he
        · cases he; exact hu
  unfold invalidOrder
  rw [Bool.or_eq_true, Bool.or_eq_true, Bool.not_eq_true', Bool.not_eq_true', hfalsy, hfalsy,
    or_assoc]
  by_cases hq : body.quantity.truthy = true
  · rw [hle _ hq]
  · have hq1 : body.quantity.truthy = false := by simpa using hq
    have hq2 := (hfalsy _).1 hq1
    constructor
    · rintro (h | h | _)
      · exact Or.inl h
      · exact Or.inr (Or.inl h)
      · exact Or.inr (Or.inl hq2)
    · rintro (h | h | _)
      · exact Or.inl h
      · exact Or.inr (Or.inl h)
      · exact Or.inr (Or.inl hq2)

/-- C8, as stated, fails: the request `{bookID: -1, quantity: 1}`, whose `bookID` is not a
positive integer, passes the guard of line 76; the catalog is called and the answer is 404, not
400. Likewise `{bookID: 1, quantity: 1.5}`, whose `quantity` is not an integer, passes the guard
and goes through to the payment service and to a 200 answer. -/
theorem C8_negative_bookID_reaches_catalog :
    (postOrder plainRuntime paymentCircuitBreaker
        { bookID := .num (.fin (-1)), quantity := .num (.fin 1) }
        catalogViaAxios paymentAccepting 0 0 0 noTraffic).response.status = 404 ∧
      (postOrder plainRuntime paymentCircuitBreaker
        { bookID := .num (.fin (-1)), quantity := .num (.fin 1) }
        catalogViaAxios paymentAccepting 0 0 0 noTraffic).world.catalogUrls
        = ["http://catalog:5000/books/-1"] ∧
      (postOrder plainRuntime paymentCircuitBreaker
        { bookID := .num (.fin 1), quantity := .num (.fin (3 / 2)) }
        catalogViaAxios paymentAccepting 0 0 0 noTraffic).response.status = 200 ∧
      (postOrder plainRuntime paymentCircuitBreaker
        { bookID := .num (.fin 1), quantity := .num (.fin (3 / 2)) }
        catalogViaAxios paymentAccepting 0 0 0 noTraffic).world.payments.length = 1 := by
  decide!

/-- C8, amended: for every order request in which `bookID` is falsy (missing, `null`, `false`,
`0`, `NaN` or the empty string), or `quantity` is falsy, or `quantity <= 0` holds (a negative
number, or a string that converts to a number that is zero or negative), the handler answers
status 400 with error 'Invalid order data', makes no remote call (the world is untouched) and
does not touch the breaker. -/
theorem C8_guard_rejects_without_remote_call (rt : JsRuntime) (cb : CircuitBreaker)
    (body : OrderBody)
    (catalogGet : String → σ → Except JsError Book × σ)
    (paymentPost : String → PaymentRequest → σ → Except JsError α × σ)
    (now orderTime failTime : Int) (w : σ)
    (hbad : body.bookID.Falsy ∨ body.quantity.Falsy ∨ body.quantity.NonPositive rt) :
    (postOrder rt cb body catalogGet paymentPost now orderTime failTime w).response
        = { status := 400, success := none, error := some "Invalid order data"
            circuitBreakerState := none, details := none, errorCode := none, stack := none
            orderDetails := none, payment := none } ∧
      (postOrder rt cb body catalogGet paymentPost now orderTime failTime w).world = w ∧
      (postOrder rt cb body catalogGet paymentPost now orderTime failTime w).breaker = cb := by
  have h := (invalidOrder_iff rt body).2 hbad
  simp [postOrder, h, invalidOrderResponse]

/-- Witness of C8 (amended): the request `{bookID: 1, quantity: 0}`. -/
theorem C8_guard_rejects_without_remote_call_witness :
    (postOrder plainRuntime paymentCircuitBreaker
        { bookID := .num (.fin 1), quantity := .num (.fin 0) }
        catalogViaAxios paymentAccepting 0 0 0 noTraffic).response.status = 400 ∧
      (postOrder plainRuntime paymentCircuitBreaker
        { bookID := .num (.fin 1), quantity := .num (.fin 0) }
        catalogViaAxios paymentAccepting 0 0 0 noTraffic).world = noTraffic :=
  have h := C8_guard_rejects_without_remote_call plainRuntime paymentCircuitBreaker
    { bookID := .num (.fin 1), quantity := .num (.fin 0) }
    catalogViaAxios paymentAccepting 0 0 0 noTraffic
    (Or.inr (Or.inl (Or.inr (Or.inr (Or.inr (Or.inr (Or.inl rfl)))))))
  ⟨by rw [h.1], h.2.1⟩

/-- Dropping the base of the catalog URL leaves the route parameter. -/
theorem drop_catalog_base (id : String) :
    ("http://catalog:5000/books/" ++ id).drop "http://catalog:5000/books/".length = id := by
  rw [String.drop_eq]
  apply String.ext
  simp only [String.data_append, String.length]
  exact List.drop_left _ _

/-- When the lookup of the catalog route finds no book for the number parsed from the path text
of a numeric `bookID`, the catalog answers 404 'Book not found', the order handler answers
status 404 with error 'Book not found', the payment service is never called and the payment
breaker is left as it was. -/
theorem catalog_miss_gets_404 (rt : JsRuntime) (cb : CircuitBreaker) (body : OrderBody)
    (paymentPost : String → PaymentRequest → Traffic → Except JsError α × Traffic)
    (now orderTime failTime : Int) (w : Traffic) (n : JsNum)
    (hnum : body.bookID = .num n)
    (hvalid : invalidOrder rt body = false)
    (hmiss : findBook (parseInt (n.toStr rt)) = none) :
    getBookById (n.toStr rt) = .notFound "Book not found" ∧
      (getBookById (n.toStr rt)).status = 404 ∧
      (postOrder rt cb body catalogViaAxios paymentPost now orderTime failTime w).response
        = { status := 404, success := some false, error := some "Book not found"
            circuitBreakerState := none, details := none, errorCode := none, stack := none
            orderDetails := none, payment := none } ∧
      (postOrder rt cb body catalogViaAxios paymentPost now orderTime failTime w).world
        = { w with
            catalogUrls := w.catalogUrls ++ ["http://catalog:5000/books/" ++ n.toStr rt] } ∧
      (postOrder rt cb body catalogViaAxios paymentPost now orderTime failTime w).world.payments
        = w.payments ∧
      (postOrder rt cb body catalogViaAxios paymentPost now orderTime failTime w).breaker
        = cb := by
  have hget : getBookById (n.toStr rt) = .notFound "Book not found" := by
    simp [getBookById, hmiss]
  have hcat : ∀ w : Traffic,
      catalogViaAxios ("http://catalog:5000/books/" ++ n.toStr rt) w
        = (.error (axiosStatusError 404 ("http://catalog:5000/books/" ++ n.toStr rt)),
            { w with
              catalogUrls :=
                w.catalogUrls ++ ["http://catalog:5000/books/" ++ n.toStr rt] }) := by
    intro w
    unfold catalogViaAxios
    rw [drop_catalog_base, hget]
  have hmsg : ¬ ("Request failed with status code " ++ toString 404
      = "Payment Service temporarily unavailable") := by
    decide
  refine ⟨hget, by rw [hget]; rfl, ?_, ?_, ?_, ?_⟩ <;>
    simp [postOrder, hvalid, hnum, JsVal.toStr, hcat, handleError, hmsg, axiosStatusError]

/-- An error that carries the breaker's own message is answered as a refusal of the breaker,
whatever its origin. -/
theorem handleError_of_breaker_message {α : Type} (rt : JsRuntime) (cb : CircuitBreaker)
    (error : JsError) (hm : error.message = "Payment Service temporarily unavailable") :
    (handleError rt cb error : Response α).observable
      = (503, some "Payment Service temporarily unavailable") := by
  simp [handleError, hm, Response.observable]

/-- The answer of the `catch` block to an error that does not carry the breaker's message: 404
when the error carries a response of status 404, and 500 otherwise. -/
theorem handleError_status {α : Type} (rt : JsRuntime) (cb : CircuitBreaker) (error : JsError)
    (hm : error.message ≠ "Payment Service temporarily unavailable") :
    (handleError rt cb error : Response α).status
      = if error.responseStatus = some 404 then 404 else 500 := by
  unfold handleError
  rw [if_neg hm]
  by_cases h404 : error.responseStatus = some 404
  · rw [if_pos h404, if_pos h404]
  · rw [if_neg h404, if_neg h404]
    split_ifs <;> rfl

/-- The HTTP status of the answer to a failure whose errors are shaped as axios shapes them,
kind by kind: 400, 404 and 503 for `InvalidRequest`, `BookNotFound` and `PaymentCircuitOpen`,
and 500 for every other kind. -/
theorem status_of_failure {σ α : Type} (rt : JsRuntime) (cb : CircuitBreaker)
    (body : OrderBody)
    (catalogGet : String → σ → Except JsError Book × σ)
    (paymentPost : String → PaymentRequest → σ → Except JsError α × σ)
    (now orderTime failTime : Int) (w : σ) (f : Failure)
    (hf : failureOf rt cb body catalogGet paymentPost now orderTime w = some f)
    (hs : f.AxiosShaped) :
    (postOrder rt cb body catalogGet paymentPost now orderTime failTime w).response.status
      = match f.kind with
        | .InvalidRequest => 400
        | .BookNotFound => 404
        | .PaymentCircuitOpen => 503
        | _ => 500 := by
  unfold failureOf at hf
  unfold postOrder
  by_cases hinv : invalidOrder rt body = true
  · rw [if_pos hinv] at hf
    cases hf
    simp [hinv, Failure.kind, invalidOrderResponse]
  · rw [if_neg hinv] at hf
    rw [if_neg hinv]
    rcases hcat : catalogGet ("http://catalog:5000/books/" ++ body.bookID.toStr rt) w
      with ⟨rc, w1⟩
    rw [hcat] at hf
    cases rc with
    | error e =>
      simp only [Option.some.injEq] at hf
      subst hf
      simp only [Failure.AxiosShaped] at hs
      simp only [handleError_status rt cb e hs, Failure.kind]
      by_cases h404 : e.responseStatus = some 404
      · simp [h404]
      · simp [h404]
    | ok book =>
      simp only at hf
      simp only [CircuitBreaker.call]
      cases hent : cb.enter now with
      | error e0 =>
        rw [hent] at hf
        simp only [Option.some.injEq] at hf
        subst hf
        have he0 : e0 = breakerOpenError := by
          unfold CircuitBreaker.enter at hent
          split_ifs at hent
          cases hent
          rfl
        subst he0
        simp [Failure.kind, handleError, breakerOpenError, breakerOpenMessage]
      | ok cb1 =>
        rw [hent] at hf
        simp only at hf
        rcases hpay : paymentPost "http://payment:5002/pay"
          { amount := totalCost book.price (body.quantity.toNumber rt)
            orderId := "ORDER-" ++ toString orderTime } w1 with ⟨rp, w2⟩
        rw [hpay] at hf
        cases rp with
        | ok v => simp at hf
        | error e =>
          simp only [Option.some.injEq] at hf
          subst hf
          obtain ⟨hm, h404⟩ := hs
          simp only [handleError_status rt _ e hm, if_neg h404, Failure.kind]
          split_ifs <;> rfl

/-- C10, as stated, fails. Five orders that fail in five different ways, by a catalog request
that times out (`CatalogUnavailable`), a payment answered with status 500 (`PaymentRejected`),
a payment request that runs into the time limit of line 107 (`PaymentTimeout`), a payment host
that cannot be resolved (`PaymentUnreachable`) and a payment connection that is reset
(`Unclassified`), are all answered with status 500 and error 'Order processing failed'. A
catalog and a payment service that refuse the connection (`CatalogUnavailable`,
`PaymentUnreachable`) are both answered 500 'Service connection failed'. A payment answered
with status 404 (`PaymentRejected`) is answered 404 'Book not found', like an unknown book
(`BookNotFound`). The answers differ in their `details` text at most. -/
theorem C10_different_kinds_same_status_and_error :
    ((failureOf plainRuntime paymentCircuitBreaker (orderAt 1 2 0).body
          catalogTimingOut paymentAccepting 0 0 noTraffic).map Failure.kind
          = some .CatalogUnavailable ∧
        (postOrder plainRuntime paymentCircuitBreaker (orderAt 1 2 0).body
          catalogTimingOut paymentAccepting 0 0 0 noTraffic).response.observable
          = (500, some "Order processing failed")) ∧
      ((failureOf plainRuntime paymentCircuitBreaker (orderAt 1 2 0).body
          catalogViaAxios paymentRejecting 0 0 noTraffic).map Failure.kind
          = some .PaymentRejected ∧
        (postOrder plainRuntime paymentCircuitBreaker (orderAt 1 2 0).body
          catalogViaAxios paymentRejecting 0 0 0 noTraffic).response.observable
          = (500, some "Order processing failed")) ∧
      ((failureOf plainRuntime paymentCircuitBreaker (orderAt 1 2 0).body
          catalogViaAxios paymentTimingOut 0 0 noTraffic).map Failure.kind
          = some .PaymentTimeout ∧
        (postOrder plainRuntime paymentCircuitBreaker (orderAt 1 2 0).body
          catalogViaAxios paymentTimingOut 0 0 0 noTraffic).response.observable
          = (500, some "Order processing failed")) ∧
      ((failureOf plainRuntime paymentCircuitBreaker (orderAt 1 2 0).body
          catalogViaAxios paymentUnresolved 0 0 noTraffic).map Failure.kind
          = some .PaymentUnreachable ∧
        (postOrder plainRuntime paymentCircuitBreaker (orderAt 1 2 0).body
          catalogViaAxios paymentUnresolved 0 0 0 noTraffic).response.observable
          = (500, some "Order processing failed")) ∧
      ((failureOf plainRuntime paymentCircuitBreaker (orderAt 1 2 0).body
          catalogViaAxios paymentReset 0 0 noTraffic).map Failure.kind
          = some .Unclassified ∧
        (postOrder plainRuntime paymentCircuitBreaker (orderAt 1 2 0).body
          catalogViaAxios paymentReset 0 0 0 noTraffic).response.observable
          = (500, some "Order processing failed")) ∧
      ((failureOf plainRuntime paymentCircuitBreaker (orderAt 1 2 0).body
          catalogUnreachable paymentAccepting 0 0 noTraffic).map Failure.kind
          = some .CatalogUnavailable ∧
        (postOrder plainRuntime paymentCircuitBreaker (orderAt 1 2 0).body
          catalogUnreachable paymentAccepting 0 0 0 noTraffic).response.observable
          = (500, some "Service connection failed")) ∧
      ((failureOf plainRuntime paymentCircuitBreaker (orderAt 1 2 0).body
          catalogViaAxios paymentUnreachable 0 0 noTraffic).map Failure.kind
          = some .PaymentUnreachable ∧
        (postOrder plainRuntime paymentCircuitBreaker (orderAt 1 2 0).body
          catalogViaAxios paymentUnreachable 0 0 0 noTraffic).response.observable
          = (500, some "Service connection failed")) ∧
      ((failureOf plainRuntime paymentCircuitBreaker (orderAt 1 2 0).body
          catalogViaAxios paymentMissing 0 0 noTraffic).map Failure.kind
          = some .PaymentRejected ∧
        (postOrder plainRuntime paymentCircuitBreaker (orderAt 1 2 0).body
          catalogViaAxios paymentMissing 0 0 0 noTraffic).response.observable
          = (404, some "Book not found")) ∧
      ((failureOf plainRuntime paymentCircuitBreaker (orderAt 999 1 0).body
          catalogViaAxios paymentAccepting 0 0 noTraffic).map Failure.kind
          = some .BookNotFound ∧
        (postOrder plainRuntime paymentCircuitBreaker (orderAt 999 1 0).body
          catalogViaAxios paymentAccepting 0 0 0 noTraffic).response.observable
          = (404, some "Book not found")) := by
  decide!

/-- C10, amended: the answers of the order handler tell `InvalidRequest`, `BookNotFound` and
`PaymentCircuitOpen` apart from every failure of another kind. For any two failing order
requests whose failures are of different kinds, one of them at least `InvalidRequest`,
`BookNotFound` or `PaymentCircuitOpen`, no dependency error carrying the breaker's own message
and the payment service not answering 404, the HTTP statuses of the two answers differ, and so
do the pairs (HTTP status, `error` field). -/
theorem C10_three_kinds_told_apart {σ₁ α₁ σ₂ α₂ : Type}
    (rt₁ rt₂ : JsRuntime) (cb₁ cb₂ : CircuitBreaker) (body₁ body₂ : OrderBody)
    (catalogGet₁ : String → σ₁ → Except JsError Book × σ₁)
    (paymentPost₁ : String → PaymentRequest → σ₁ → Except JsError α₁ × σ₁)
    (catalogGet₂ : String → σ₂ → Except JsError Book × σ₂)
    (paymentPost₂ : String → PaymentRequest → σ₂ → Except JsError α₂ × σ₂)
    (now₁ orderTime₁ failTime₁ now₂ orderTime₂ failTime₂ : Int) (w₁ : σ₁) (w₂ : σ₂)
    (f₁ f₂ : Failure)
    (h₁ : failureOf rt₁ cb₁ body₁ catalogGet₁ paymentPost₁ now₁ orderTime₁ w₁ = some f₁)
    (h₂ : failureOf rt₂ cb₂ body₂ catalogGet₂ paymentPost₂ now₂ orderTime₂ w₂ = some f₂)
    (hs₁ : f₁.AxiosShaped) (hs₂ : f₂.AxiosShaped)
    (hapart : f₁.kind.ToldApart ∨ f₂.kind.ToldApart)
    (hne : f₁.kind ≠ f₂.kind) :
    (postOrder rt₁ cb₁ body₁ catalogGet₁ paymentPost₁
        now₁ orderTime₁ failTime₁ w₁).response.status
        ≠ (postOrder rt₂ cb₂ body₂ catalogGet₂ paymentPost₂
          now₂ orderTime₂ failTime₂ w₂).response.status ∧
      (postOrder rt₁ cb₁ body₁ catalogGet₁ paymentPost₁
        now₁ orderTime₁ failTime₁ w₁).response.observable
        ≠ (postOrder rt₂ cb₂ body₂ catalogGet₂ paymentPost₂
          now₂ orderTime₂ failTime₂ w₂).response.observable := by
  have o₁ := status_of_failure rt₁ cb₁ body₁ catalogGet₁ paymentPost₁
    now₁ orderTime₁ failTime₁ w₁ f₁ h₁ hs₁
  have o₂ := status_of_failure rt₂ cb₂ body₂ catalogGet₂ paymentPost₂
    now₂ orderTime₂ failTime₂ w₂ f₂ h₂ hs₂
  have hstatus : (postOrder rt₁ cb₁ body₁ catalogGet₁ paymentPost₁
      now₁ orderTime₁ failTime₁ w₁).response.status
      ≠ (postOrder rt₂ cb₂ body₂ catalogGet₂ paymentPost₂
        now₂ orderTime₂ failTime₂ w₂).response.status := by
    rw [o₁, o₂]
    generalize f₁.kind = k₁ at hapart hne
    generalize f₂.kind = k₂ at hapart hne
    unfold FailureKind.ToldApart at hapart
    cases k₁ <;> cases k₂ <;> simp_all
  refine ⟨hstatus, ?_⟩
  intro hobs
  exact hstatus (congrArg Prod.fst hobs)

/-- Witness of C10 (amended): an unknown book (404) against a refused payment connection
(500). -/
theorem C10_three_kinds_told_apart_witness :
    (postOrder plainRuntime paymentCircuitBreaker (orderAt 999 1 0).body
        catalogViaAxios paymentAccepting 0 0 0 noTraffic).response.observable
      ≠ (postOrder plainRuntime paymentCircuitBreaker (orderAt 1 2 0).body
        catalogViaAxios paymentUnreachable 0 0 0 noTraffic).response.observable :=
  (C10_three_kinds_told_apart plainRuntime plainRuntime
    paymentCircuitBreaker paymentCircuitBreaker (orderAt 999 1 0).body (orderAt 1 2 0).body
    catalogViaAxios paymentAccepting catalogViaAxios paymentUnreachable 0 0 0 0 0 0
    noTraffic noTraffic
    (.catalog (axiosStatusError 404 "http://catalog:5000/books/999"))
    (.payment (connectionRefused "http://payment:5002/pay"))
    (by decide!) (by decide!)
    (by simp only [Failure.AxiosShaped]; decide) (by simp only [Failure.AxiosShaped]; decide)
    (Or.inl (Or.inr (Or.inl (by decide)))) (by decide)).2

end Handler

/-! ## Properties of the identifiers -/

section Identifiers

/-- The decimal digit characters decode to the digits they print. -/
theorem digitChar_toNat (k : ℕ) (hk : k < 10) : (Nat.digitChar k).toNat - 48 = k := by
  interval_cases k <;> rfl

/-- No decimal digit character is the minus sign. -/
theorem digitChar_ne_minus (k : ℕ) (hk : k < 10) : Nat.digitChar k ≠ '-' := by
  interval_cases k <;> decide

/-- The digits are produced in front of the accumulator. -/
theorem toDigitsCore_append : ∀ (fuel n : ℕ) (ds : List Char),
    Nat.toDigitsCore 10 fuel n ds = Nat.toDigitsCore 10 fuel n [] ++ ds := by
  intro fuel
  induction fuel with
  | zero => intro n ds; simp [Nat.toDigitsCore]
  | succ f ih =>
    intro n ds
    simp only [Nat.toDigitsCore]
    split_ifs with h
    · simp
    · rw [ih (n / 10) (Nat.digitChar (n % 10) :: ds), ih (n / 10) [Nat.digitChar (n % 10)]]
      simp

/-- Reading the printed digits back gives the number. -/
theorem toDigitsCore_decode : ∀ (fuel n : ℕ), n < fuel →
    (Nat.toDigitsCore 10 fuel n []).foldl (fun a c => a * 10 + (c.toNat - 48)) 0 = n := by
  intro fuel
  induction fuel with
  | zero => intro n h; omega
  | succ f ih =>
    intro n hn
    have hmod : n % 10 < 10 := Nat.mod_lt _ (by decide)
    simp only [Nat.toDigitsCore]
    split_ifs with h
    · simp only [List.foldl_cons, List.foldl_nil, Nat.zero_mul, Nat.zero_add]
      rw [digitChar_toNat _ hmod]
      omega
    · rw [toDigitsCore_append, List.foldl_append, ih (n / 10) (by omega)]
      simp only [List.foldl_cons, List.foldl_nil]
      rw [digitChar_toNat _ hmod]
      omega

/-- The printed digits contain no minus sign. -/
theorem toDigitsCore_no_minus : ∀ (fuel n : ℕ), '-' ∉ Nat.toDigitsCore 10 fuel n [] := by
  intro fuel
  induction fuel with
  | zero => intro n; simp [Nat.toDigitsCore]
  | succ f ih =>
    intro n
    have hmod : n % 10 < 10 := Nat.mod_lt _ (by decide)
    have hd := digitChar_ne_minus _ hmod
    simp only [Nat.toDigitsCore]
    split_ifs with h
    · simpa using hd.symm
    · rw [toDigitsCore_append]
      simp only [List.mem_append, List.mem_singleton, not_or]
      exact ⟨ih (n / 10), hd.symm⟩

/-- Printing a natural number in decimal is injective. -/
theorem natRepr_injective (a b : ℕ) (h : Nat.repr a = Nat.repr b) : a = b := by
  have hl : Nat.toDigits 10 a = Nat.toDigits 10 b := congrArg String.data h
  have ha := toDigitsCore_decode (a + 1) a (Nat.lt_succ_self a)
  have hb := toDigitsCore_decode (b + 1) b (Nat.lt_succ_self b)
  unfold Nat.toDigits at hl
  rw [hl] at ha
  exact ha.symm.trans hb

/-- Printing an integer in decimal is injective. -/
theorem intToString_injective (a b : ℤ) (h : toString a = toString b) : a = b := by
  have hminus : ∀ (m n : ℕ), "-" ++ Nat.repr m ≠ Nat.repr n := by
    intro m n hmn
    have hdata := congrArg String.data hmn
    have hmem : '-' ∈ (Nat.repr n).data := by
      rw [← hdata]; simp
    exact toDigitsCore_no_minus (n + 1) n (by simpa [Nat.repr, List.asString, Nat.toDigits] using hmem)
  cases a with
  | ofNat m =>
    cases b with
    | ofNat n =>
      have : Nat.repr m = Nat.repr n := h
      rw [natRepr_injective m n this]
    | negSucc n =>
      have : Nat.repr m = "-" ++ Nat.repr (n + 1) := h
      exact absurd this.symm (hminus _ _)
  | negSucc m =>
    cases b with
    | ofNat n =>
      have : "-" ++ Nat.repr (m + 1) = Nat.repr n := h
      exact absurd this (hminus _ _)
    | negSucc n =>
      have : "-" ++ Nat.repr (m + 1) = "-" ++ Nat.repr (n + 1) := h
      have hd := congrArg String.data this
      simp only [String.data_append, List.append_cancel_left_eq] at hd
      have := natRepr_injective (m + 1) (n + 1) (String.ext hd)
      have hmn : m = n := by omega
      rw [hmn]

/-- The order identifiers built from two clock readings are equal exactly when the readings
are. -/
theorem orderId_eq_iff (a b : ℤ) :
    "ORDER-" ++ toString a = "ORDER-" ++ toString b ↔ a = b := by
  constructor
  · intro h
    have hd := congrArg String.data h
    simp only [String.data_append, List.append_cancel_left_eq] at hd
    exact intToString_injective a b (String.ext hd)
  · intro h
    rw [h]

/-- At one and the same clock reading, two transaction identifiers of the payment service are
equal only if their random suffixes are. -/
theorem transactionId_eq_iff (now : ℤ) (s₁ s₂ : String) :
    transactionId now s₁ = transactionId now s₂ ↔ s₁ = s₂ := by
  constructor
  · intro h
    have hd := congrArg String.data h
    simp only [transactionId, String.data_append, List.append_cancel_left_eq] at hd
    exact String.ext hd
  · intro h
    rw [h]

/-- The payment request of an attempt: when the request passes the guard, the catalog lookup
succeeds and the breaker lets the call through, the handler sends the payment service the total
cost and the identifier `ORDER-` followed by the clock reading taken in the payment closure. -/
theorem payment_request_sent (rt : JsRuntime) (cb cb1 : CircuitBreaker) (body : OrderBody)
    (catalogGet : String → Traffic → Except JsError Book × Traffic)
    (now orderTime failTime : Int) (w w1 : Traffic) (book : Book)
    (hvalid : invalidOrder rt body = false)
    (hcat : catalogGet ("http://catalog:5000/books/" ++ body.bookID.toStr rt) w = (.ok book, w1))
    (hent : cb.enter now = .ok cb1) :
    (postOrder rt cb body catalogGet paymentAccepting now orderTime failTime w).world.payments
      = w1.payments ++
        [{ amount := totalCost book.price (body.quantity.toNumber rt)
           orderId := "ORDER-" ++ toString orderTime }] := by
  simp [postOrder, hvalid, hcat, CircuitBreaker.call, hent, paymentAccepting]

/-- C11, at a failing input: two distinct payment attempts, one for two copies of book 1 and one
for one copy of book 2, whose payment closures both read the clock at 1000, send the payment
service the same `orderId`, `ORDER-1000`; the same holds when the two orders are handled one
after the other on the same breaker. The identifier is `ORDER-` followed by the clock reading
and nothing else. -/
theorem C11_same_reading_same_orderId :
    (postOrder plainRuntime paymentCircuitBreaker (orderAt 1 2 1000).body
        catalogViaAxios paymentAccepting 1000 1000 1000 noTraffic).world.payments
        = [{ amount := roundBinary64 (3198 / 100), orderId := "ORDER-1000" }] ∧
      (postOrder plainRuntime paymentCircuitBreaker (orderAt 2 1 1000).body
        catalogViaAxios paymentAccepting 1000 1000 1000 noTraffic).world.payments
        = [{ amount := roundBinary64 (1250 / 100), orderId := "ORDER-1000" }] ∧
      (handleEvents plainRuntime catalogViaAxios paymentAccepting paymentCircuitBreaker
        noTraffic [orderAt 1 2 1000, orderAt 2 1 1000]).2.payments.map PaymentRequest.orderId
        = ["ORDER-1000", "ORDER-1000"] := by
  decide!

end Identifiers


/-! ## Integer identifiers on their way to the catalog -/

section CatalogIds

/-- Every character printed for a natural number is a decimal digit. -/
theorem toDigitsCore_digits : ∀ (fuel n : ℕ) (c : Char),
    c ∈ Nat.toDigitsCore 10 fuel n [] → ∃ j, j < 10 ∧ c = Nat.digitChar j := by
  intro fuel
  induction fuel with
  | zero => intro n c h; simp [Nat.toDigitsCore] at h
  | succ f ih =>
    intro n c h
    have hmod : n % 10 < 10 := Nat.mod_lt _ (by decide)
    simp only [Nat.toDigitsCore] at h
    split_ifs at h with h0
    · rw [List.mem_singleton] at h
      exact ⟨n % 10, hmod, h⟩
    · rw [toDigitsCore_append, List.mem_append, List.mem_singleton] at h
      rcases h with h | h
      · exact ih (n / 10) c h
      · exact ⟨n % 10, hmod, h⟩

/-- At least one digit is printed. -/
theorem toDigits_ne_nil (m : ℕ) : Nat.toDigits 10 m ≠ [] := by
  unfold Nat.toDigits
  simp only [Nat.toDigitsCore]
  split_ifs with h0
  · simp
  · rw [toDigitsCore_append]
    simp

/-- What `parseInt` makes of a decimal digit: it is no white space, no sign and no `x`, and it
counts as the digit it prints. -/
theorem digitChar_read (j : ℕ) (hj : j < 10) :
    isJsWhitespace (Nat.digitChar j) = false ∧ Nat.digitChar j ≠ '-' ∧
      Nat.digitChar j ≠ '+' ∧ Nat.digitChar j ≠ 'x' ∧ Nat.digitChar j ≠ 'X' ∧
      digitValue 10 (Nat.digitChar j) = some ((Nat.digitChar j).toNat - 48) := by
  interval_cases j <;> decide

/-- On a text made of decimal digits, `leadingDigits` reads all of it. -/
theorem leadingDigits_of_digits (l : List Char)
    (h : ∀ c ∈ l, ∃ j, j < 10 ∧ c = Nat.digitChar j) :
    leadingDigits 10 l = l.map (fun c => c.toNat - 48) := by
  induction l with
  | nil => rfl
  | cons c rest ih =>
    obtain ⟨j, hj, hc⟩ := h c (List.mem_cons_self _ _)
    have hv := (digitChar_read j hj).2.2.2.2.2
    rw [← hc] at hv
    simp only [leadingDigits, hv, List.map_cons]
    rw [ih (fun d hd => h d (List.mem_cons_of_mem _ hd))]

/-- The function `parseInt` reads a run of decimal digits, with or without a minus sign in front,
as the integer it writes, rounded to binary64. -/
theorem parseInt_of_digits (negative : Bool) (ds : List Char) (hne : ds ≠ [])
    (hd : ∀ c ∈ ds, ∃ j, j < 10 ∧ c = Nat.digitChar j) :
    parseInt (String.mk (if negative then '-' :: ds else ds))
      = roundBinary64
          (if negative then
            -((ds.foldl (fun a c => a * 10 + (c.toNat - 48)) 0 : ℕ) : ℚ)
          else ((ds.foldl (fun a c => a * 10 + (c.toNat - 48)) 0 : ℕ) : ℚ)) := by
  obtain ⟨c0, rest, hds⟩ := List.exists_cons_of_ne_nil hne
  obtain ⟨j0, hj0, hc0⟩ := hd c0 (by rw [hds]; exact List.mem_cons_self _ _)
  obtain ⟨hws, hminus, hplus, _, _, _⟩ := digitChar_read j0 hj0
  rw [← hc0] at hws hminus hplus
  have hnox : ∀ x : Char, x = 'x' ∨ x = 'X' → ¬ (ds.take 2 = ['0', x]) := by
    intro x hx htake
    have hmem : x ∈ ds.take 2 := by rw [htake]; simp
    obtain ⟨j, hj, hc⟩ := hd x (List.mem_of_mem_take hmem)
    obtain ⟨_, _, _, h1, h2, _⟩ := digitChar_read j hj
    rcases hx with hx | hx
    · exact h1 (hc ▸ hx)
    · exact h2 (hc ▸ hx)
  have hhex : ¬ (ds.take 2 = ['0', 'x'] ∨ ds.take 2 = ['0', 'X']) := by
    rintro (h | h)
    · exact hnox 'x' (Or.inl rfl) h
    · exact hnox 'X' (Or.inr rfl) h
  have hlead := leadingDigits_of_digits ds hd
  have hmapne : ds.map (fun c => c.toNat - 48) ≠ [] := by
    rw [hds]; simp
  have hfold : (ds.map (fun c => c.toNat - 48)).foldl (fun a d => a * 10 + d) 0
      = ds.foldl (fun a c => a * 10 + (c.toNat - 48)) 0 := by
    rw [List.foldl_map]
  have hdrop : ds.dropWhile isJsWhitespace = ds := by
    rw [hds, List.dropWhile_cons_of_neg (by simp [hws])]
  have hhead : ds.head? = some c0 := by rw [hds]; rfl
  cases negative with
  | false =>
    have h1 : ¬ (ds.head? = some '-') := by
      rw [hhead]; intro h; exact hminus (Option.some.inj h)
    have h2 : ¬ (ds.head? = some '+') := by
      rw [hhead]; intro h; exact hplus (Option.some.inj h)
    simp only [parseInt, String.toList, Bool.false_eq_true, if_false, hdrop, h1, h2, false_or,
      hhex, hlead, hmapne, hfold]
  | true =>
    have hdrop' : ('-' :: ds).dropWhile isJsWhitespace = '-' :: ds :=
      List.dropWhile_cons_of_neg (by decide)
    simp only [parseInt, String.toList, if_true, hdrop', List.head?_cons, List.tail_cons,
      true_or, hhex, if_false, hlead, hmapne, hfold]

/-- The function `parseInt` reads the decimal text of an integer as that integer, rounded to
binary64. -/
theorem parseInt_toString (k : ℤ) : parseInt (toString k) = roundBinary64 (k : ℚ) := by
  cases k with
  | ofNat m =>
    have h := parseInt_of_digits false (Nat.toDigits 10 m) (toDigits_ne_nil m)
      (fun c hc => toDigitsCore_digits (m + 1) m c hc)
    have hv := toDigitsCore_decode (m + 1) m (Nat.lt_succ_self m)
    change (Nat.toDigits 10 m).foldl (fun a c => a * 10 + (c.toNat - 48)) 0 = m at hv
    rw [hv] at h
    simpa using h
  | negSucc m =>
    have h := parseInt_of_digits true (Nat.toDigits 10 (m + 1)) (toDigits_ne_nil (m + 1))
      (fun c hc => toDigitsCore_digits (m + 1 + 1) (m + 1) c hc)
    have hv := toDigitsCore_decode (m + 1 + 1) (m + 1) (Nat.lt_succ_self (m + 1))
    change (Nat.toDigits 10 (m + 1)).foldl (fun a c => a * 10 + (c.toNat - 48)) 0 = m + 1 at hv
    rw [hv] at h
    have hs : toString (Int.negSucc m) = String.mk ('-' :: Nat.toDigits 10 (m + 1)) := rfl
    rw [hs, Int.cast_negSucc]
    simpa using h

/-- The printing of an integer number below `10 ^ 21` in magnitude is its decimal text,
whatever the runtime. -/
theorem toStr_int (rt : JsRuntime) (k : ℤ) (hbig : k.natAbs < 10 ^ 21) :
    JsNum.toStr rt (.fin (k : ℚ)) = toString k := by
  simp only [JsNum.toStr]
  rw [if_pos ⟨Rat.intCast_den k, by rw [Rat.intCast_num]; exact hbig⟩, Rat.intCast_num]

/-- Rounding the opposite of a positive rational in the normal range gives the opposite of a
finite number, with relative error at most `2 ^ (-53)`. -/
theorem roundBinary64_neg_of_normal (x : ℚ) (hlo : (2 : ℚ) ^ (-1022 : ℤ) ≤ x)
    (hhi : x < (2 : ℚ) ^ (1023 : ℤ)) :
    ∃ r : ℚ, roundBinary64 (-x) = .fin (-r) ∧ |r - x| ≤ x / 2 ^ 53 := by
  have hx : 0 < x := lt_of_lt_of_le (zpow_pos (by norm_num) _) hlo
  have hnum : 0 < x.num := Rat.num_pos.2 hx
  have hn : 0 < x.num.natAbs := Int.natAbs_pos.2 hnum.ne'
  have hcast : ((x.num.natAbs : ℕ) : ℚ) / (x.den : ℚ) = x := by
    rw [Nat.cast_natAbs, abs_of_pos hnum]
    exact Rat.num_div_den x
  obtain ⟨r, hr, hb⟩ := roundMagnitude_spec x.num.natAbs x.den hn x.den_pos
    (by rw [hcast]; exact hlo) (by rw [hcast]; exact hhi)
  rw [hcast] at hb
  refine ⟨r, ?_, hb⟩
  have hne : -x ≠ 0 := neg_ne_zero.2 hx.ne'
  have hneg : -x < 0 := neg_lt_zero.2 hx
  unfold roundBinary64
  rw [if_neg hne, Rat.neg_num, Rat.neg_den, Int.natAbs_neg, hr]
  simp [hneg]

/-- A number that is none of the five identifiers of the table is not found. -/
theorem findBook_of_not_id (x : ℚ) (h1 : x ≠ 1) (h2 : x ≠ 2) (h3 : x ≠ 3) (h4 : x ≠ 4)
    (h5 : x ≠ 5) : findBook (.fin x) = none := by
  simp [findBook, books, JsNum.strictEq, List.find?, Ne.symm h1, Ne.symm h2, Ne.symm h3,
    Ne.symm h4, Ne.symm h5]

/-- A non-zero integer below `10 ^ 21` in magnitude that is not the identifier of a book is not
found by the catalog, also after rounding to binary64. -/
theorem findBook_roundBinary64_int (k : ℤ) (hk : k ≠ 0) (hbig : k.natAbs < 10 ^ 21)
    (hmiss : ∀ b ∈ books, b.bookID ≠ .fin (k : ℚ)) :
    findBook (roundBinary64 (k : ℚ)) = none := by
  have hnot : ∀ i : ℤ, (∃ b ∈ books, b.bookID = .fin (i : ℚ)) → k ≠ i := by
    rintro i ⟨b, hb, hbi⟩ hki
    exact hmiss b hb (by rw [hbi, hki])
  have k1 : k ≠ 1 := hnot 1 ⟨_, List.mem_cons_self _ _, by simp⟩
  have k2 : k ≠ 2 := hnot 2 ⟨_, List.mem_cons_of_mem _ (List.mem_cons_self _ _), by simp⟩
  have k3 : k ≠ 3 := hnot 3
    ⟨_, List.mem_cons_of_mem _ (List.mem_cons_of_mem _ (List.mem_cons_self _ _)), by simp⟩
  have k4 : k ≠ 4 := hnot 4
    ⟨_, List.mem_cons_of_mem _ (List.mem_cons_of_mem _
      (List.mem_cons_of_mem _ (List.mem_cons_self _ _))), by simp⟩
  have k5 : k ≠ 5 := hnot 5
    ⟨_, List.mem_cons_of_mem _ (List.mem_cons_of_mem _ (List.mem_cons_of_mem _
      (List.mem_cons_of_mem _ (List.mem_cons_self _ _)))), by simp⟩
  have h12 : (1 : ℚ) ≤ 2 := by norm_num
  have hlow : (2 : ℚ) ^ (-1022 : ℤ) ≤ 1 := by
    have : (2 : ℚ) ^ (-1022 : ℤ) ≤ (2 : ℚ) ^ (0 : ℤ) := zpow_le_zpow_right₀ h12 (by norm_num)
    simpa using this
  have hhigh : ((10 : ℚ)) ^ 21 < (2 : ℚ) ^ (1023 : ℤ) := by
    have h70 : (2 : ℚ) ^ (70 : ℤ) ≤ (2 : ℚ) ^ (1023 : ℤ) := zpow_le_zpow_right₀ h12 (by norm_num)
    have e : (2 : ℚ) ^ 70 = (2 : ℚ) ^ (70 : ℤ) := by norm_cast
    have : (10 : ℚ) ^ 21 < 2 ^ 70 := by norm_num
    exact lt_of_lt_of_le this (e.le.trans h70)
  have habs : ((k.natAbs : ℕ) : ℚ) < 10 ^ 21 := by exact_mod_cast hbig
  rcases lt_or_gt_of_ne hk with hneg | hpos
  · -- a negative identifier rounds to a negative number
    have hx1 : (1 : ℚ) ≤ -(k : ℚ) := by
      have : (1 : ℤ) ≤ -k := by omega
      exact_mod_cast this
    have hxabs : -(k : ℚ) = ((k.natAbs : ℕ) : ℚ) := by
      rw [Nat.cast_natAbs, abs_of_neg hneg]; push_cast; ring
    obtain ⟨r, hr, hb⟩ := roundBinary64_neg_of_normal (-(k : ℚ)) (hlow.trans hx1)
      (by rw [hxabs]; exact lt_trans habs hhigh)
    rw [neg_neg] at hr
    rw [hr]
    rw [abs_le] at hb
    have hrpos : 0 < r := by
      have : -(k : ℚ) / 2 ^ 53 ≤ -(k : ℚ) / 2 := by
        apply div_le_div_of_nonneg_left (by linarith) (by norm_num) (by norm_num)
      linarith [hb.1]
    apply findBook_of_not_id <;> linarith
  · -- a positive identifier other than 1..5 is at least 6 and rounds above 5
    have hk6 : (6 : ℤ) ≤ k := by omega
    have hx6 : (6 : ℚ) ≤ (k : ℚ) := by exact_mod_cast hk6
    have hxabs : (k : ℚ) = ((k.natAbs : ℕ) : ℚ) := by
      rw [Nat.cast_natAbs, abs_of_pos hpos]
    obtain ⟨r, hr, hb⟩ := roundBinary64_of_normal (k : ℚ) (hlow.trans (by linarith))
      (by rw [hxabs]; exact lt_trans habs hhigh)
    rw [hr]
    rw [abs_le] at hb
    have hr5 : 5 < r := by
      have : (k : ℚ) / 2 ^ 53 ≤ (k : ℚ) / 6 := by
        apply div_le_div_of_nonneg_left (by linarith) (by norm_num) (by norm_num)
      linarith [hb.1]
    apply findBook_of_not_id <;> linarith

/-- C9, as stated, fails. The request `{bookID: 1.5, quantity: 1}` passes the guard and its
`bookID` is the identifier of no book, yet the catalog reads the path text `1.5` with `parseInt`
as 1 and answers with book 1: the order is paid and answered 200. The same happens for the
number `1e21`, printed `1e+21`, and for the text `1abc`. -/
theorem C9_id_read_as_book_1_is_served :
    (invalidOrder plainRuntime { bookID := .num (.fin (3 / 2)), quantity := .num (.fin 1) }
          = false ∧
        (∀ b ∈ books, b.bookID ≠ .fin (3 / 2)) ∧
        (getBookById "1.5").status = 200 ∧
        (postOrder plainRuntime paymentCircuitBreaker
          { bookID := .num (.fin (3 / 2)), quantity := .num (.fin 1) }
          catalogViaAxios paymentAccepting 0 0 0 noTraffic).response.status = 200 ∧
        (postOrder plainRuntime paymentCircuitBreaker
          { bookID := .num (.fin (3 / 2)), quantity := .num (.fin 1) }
          catalogViaAxios paymentAccepting 0 0 0 noTraffic).world
          = { catalogUrls := ["http://catalog:5000/books/1.5"]
              payments := [{ amount := roundBinary64 (1599 / 100), orderId := "ORDER-0" }] }) ∧
      (invalidOrder plainRuntime { bookID := .num (.fin (10 ^ 21)), quantity := .num (.fin 1) }
          = false ∧
        (∀ b ∈ books, b.bookID ≠ .fin (10 ^ 21)) ∧
        (postOrder plainRuntime paymentCircuitBreaker
          { bookID := .num (.fin (10 ^ 21)), quantity := .num (.fin 1) }
          catalogViaAxios paymentAccepting 0 0 0 noTraffic).response.status = 200 ∧
        (postOrder plainRuntime paymentCircuitBreaker
          { bookID := .num (.fin (10 ^ 21)), quantity := .num (.fin 1) }
          catalogViaAxios paymentAccepting 0 0 0 noTraffic).world
          = { catalogUrls := ["http://catalog:5000/books/1e+21"]
              payments := [{ amount := roundBinary64 (1599 / 100), orderId := "ORDER-0" }] }) ∧
      (invalidOrder plainRuntime { bookID := .str "1abc", quantity := .num (.fin 1) } = false ∧
        (postOrder plainRuntime paymentCircuitBreaker
          { bookID := .str "1abc", quantity := .num (.fin 1) }
          catalogViaAxios paymentAccepting 0 0 0 noTraffic).response.status = 200 ∧
        (postOrder plainRuntime paymentCircuitBreaker
          { bookID := .str "1abc", quantity := .num (.fin 1) }
          catalogViaAxios paymentAccepting 0 0 0 noTraffic).world
          = { catalogUrls := ["http://catalog:5000/books/1abc"]
              payments := [{ amount := roundBinary64 (1599 / 100), orderId := "ORDER-0" }] }) := by
  decide!

/-- C9, amended: for every order request that passes the guard and whose `bookID` is an integer
number, below `10 ^ 21` in magnitude, that is the identifier of no book of the catalog, the
catalog answers 404 'Book not found', the order handler answers status 404 with error
'Book not found', the payment service is never called (the world only gains the catalog request)
and the payment breaker is left as it was. -/
theorem C9_unknown_integer_id_gets_404 {α : Type} (rt : JsRuntime) (cb : CircuitBreaker)
    (body : OrderBody)
    (paymentPost : String → PaymentRequest → Traffic → Except JsError α × Traffic)
    (now orderTime failTime : Int) (w : Traffic) (k : ℤ)
    (hid : body.bookID = .num (.fin (k : ℚ)))
    (hvalid : invalidOrder rt body = false)
    (hbig : k.natAbs < 10 ^ 21)
    (hmiss : ∀ b ∈ books, b.bookID ≠ .fin (k : ℚ)) :
    getBookById (toString k) = .notFound "Book not found" ∧
      (getBookById (toString k)).status = 404 ∧
      (postOrder rt cb body catalogViaAxios paymentPost now orderTime failTime w).response
        = { status := 404, success := some false, error := some "Book not found"
            circuitBreakerState := none, details := none, errorCode := none, stack := none
            orderDetails := none, payment := none } ∧
      (postOrder rt cb body catalogViaAxios paymentPost now orderTime failTime w).world
        = { w with
            catalogUrls := w.catalogUrls ++ ["http://catalog:5000/books/" ++ toString k] } ∧
      (postOrder rt cb body catalogViaAxios paymentPost now orderTime failTime w).world.payments
        = w.payments ∧
      (postOrder rt cb body catalogViaAxios paymentPost now orderTime failTime w).breaker
        = cb := by
  have hk : k ≠ 0 := by
    intro h0
    have : invalidOrder rt body = true := by
      simp [invalidOrder, hid, h0, JsVal.truthy, JsNum.truthy]
    rw [hvalid] at this
    cases this
  have hstr := toStr_int rt k hbig
  have hfind : findBook (parseInt ((JsNum.fin (k : ℚ)).toStr rt)) = none := by
    rw [hstr, parseInt_toString]
    exact findBook_roundBinary64_int k hk hbig hmiss
  have h := catalog_miss_gets_404 rt cb body paymentPost now orderTime failTime w
    (.fin (k : ℚ)) hid hvalid hfind
  rw [hstr] at h
  exact h

/-- Witness of C9 (amended): the request `{bookID: 999, quantity: 1}`. -/
theorem C9_unknown_integer_id_gets_404_witness :
    getBookById "999" = .notFound "Book not found" ∧
      (postOrder plainRuntime paymentCircuitBreaker
        { bookID := .num (.fin ((999 : ℤ) : ℚ)), quantity := .num (.fin 1) }
        catalogViaAxios paymentAccepting 0 0 0 noTraffic).response.status = 404 ∧
      (postOrder plainRuntime paymentCircuitBreaker
        { bookID := .num (.fin ((999 : ℤ) : ℚ)), quantity := .num (.fin 1) }
        catalogViaAxios paymentAccepting 0 0 0 noTraffic).world.payments = [] ∧
      (postOrder plainRuntime paymentCircuitBreaker
        { bookID := .num (.fin ((999 : ℤ) : ℚ)), quantity := .num (.fin 1) }
        catalogViaAxios paymentAccepting 0 0 0 noTraffic).breaker = paymentCircuitBreaker :=
  have h := C9_unknown_integer_id_gets_404 plainRuntime paymentCircuitBreaker
    { bookID := .num (.fin ((999 : ℤ) : ℚ)), quantity := .num (.fin 1) } paymentAccepting
    0 0 0 noTraffic 999 rfl (by decide!) (by decide) (by decide!)
  ⟨h.1, by rw [h.2.2.1], h.2.2.2.2.1, h.2.2.2.2.2⟩

end CatalogIds

end BookStore
